import Mathlib

/-! # SI7021 driver for ESP-IDF: shallow embedding and verified properties

The driver (`si7021.c`, `include/si7021.h`) is embedded as pure functions over
natural numbers.  Values of C type `uint8_t`, `uint16_t`, `uint32_t` and
`uint64_t` are naturals, reduced `% 2 ^ w` wherever the C code could truncate.
Functions that talk to the I2C peripheral thread a `World` through, which holds
the driver's global configuration, the sensor, the outcomes the transport will
report, and the trace of every call made to a collaborator (ESP-IDF I2C driver,
FreeRTOS delay, console).
-/

namespace SI7021

/-! ## Constants of `si7021.h` -/

def SI7021_ADDR : Nat := 0x40

def SI7021_MEASRH_HOLD_CMD : Nat := 0xE5
def SI7021_MEASRH_NOHOLD_CMD : Nat := 0xF5
def SI7021_MEASTEMP_HOLD_CMD : Nat := 0xE3
def SI7021_MEASTEMP_NOHOLD_CMD : Nat := 0xF3
def SI7021_READPREVTEMP_CMD : Nat := 0xE0
def SI7021_RESET_CMD : Nat := 0xFE
def SI7021_WRITERHT_REG_CMD : Nat := 0xE6
def SI7021_READRHT_REG_CMD : Nat := 0xE7
def SI7021_WRITEHEATER_REG_CMD : Nat := 0x51
def SI7021_READHEATER_REG_CMD : Nat := 0x11
def SI7021_ID1_CMD : Nat := 0xFA0F
def SI7021_ID2_CMD : Nat := 0xFCC9
def SI7021_FIRMVERS_CMD : Nat := 0x84B8
def SI7021_SOFT_RESET_CMD : Nat := 0xFE

def SI7021_ERR_OK : Nat := 0x00
def SI7021_ERR_CONFIG : Nat := 0x01
def SI7021_ERR_INSTALL : Nat := 0x02
def SI7021_ERR_NOTFOUND : Nat := 0x03
def SI7021_ERR_INVALID_ARG : Nat := 0x04
def SI7021_ERR_FAIL : Nat := 0x05
def SI7021_ERR_INVALID_STATE : Nat := 0x06
def SI7021_ERR_TIMEOUT : Nat := 0x07

def SI7021_12_14_RES : Nat := 0x00
def SI7021_8_12_RES : Nat := 0x01
def SI7021_10_13_RES : Nat := 0x80
def SI7021_11_11_RES : Nat := 0x81

def SI7021_VDD_OK : Nat := 0x01
def SI7021_VDD_LOW : Nat := 0x00

def SI7021_HEATER_ON : Nat := 0x01
def SI7021_HEATER_OFF : Nat := 0x00

/-! ## Constants of the platform headers

`esp_err.h`, `driver/i2c.h` and `driver/gpio.h` belong to ESP-IDF and are not
among the sources of the driver. -/

/-- Modelled from the spec: the type of a transport outcome, `esp_err_t` of
ESP-IDF's `esp_err.h` (not among the sources), a signed 32-bit integer. -/
abbrev esp_err_t := Int

/-- Modelled from the spec: the successful transport outcome; `esp_err.h` is not
among the sources, the number is the one ESP-IDF assigns. -/
def ESP_OK : esp_err_t := 0

/-- Modelled from the spec: the transport outcome "generic failure"; `esp_err.h`
is not among the sources, the number is the one ESP-IDF assigns. -/
def ESP_FAIL : esp_err_t := -1

/-- Modelled from the spec: a transport outcome outside the four the driver
maps (out of memory); `esp_err.h` is not among the sources, the number is the
one ESP-IDF assigns. -/
def ESP_ERR_NO_MEM : esp_err_t := 0x101

/-- Modelled from the spec: the transport outcome "argument error"; `esp_err.h`
is not among the sources, the number is the one ESP-IDF assigns. -/
def ESP_ERR_INVALID_ARG : esp_err_t := 0x102

/-- Modelled from the spec: the transport outcome "invalid peripheral state";
`esp_err.h` is not among the sources, the number is the one ESP-IDF assigns. -/
def ESP_ERR_INVALID_STATE : esp_err_t := 0x103

/-- Modelled from the spec: a transport outcome outside the four the driver
maps (not supported); `esp_err.h` is not among the sources, the number is the
one ESP-IDF assigns. -/
def ESP_ERR_NOT_SUPPORTED : esp_err_t := 0x106

/-- Modelled from the spec: the transport outcome "timeout"; `esp_err.h` is not
among the sources, the number is the one ESP-IDF assigns. -/
def ESP_ERR_TIMEOUT : esp_err_t := 0x107

/-- Modelled from the spec: the write direction in the low bit of the address
byte; `driver/i2c.h` is not among the sources. -/
def I2C_MASTER_WRITE : Nat := 0

/-- Modelled from the spec: the read direction in the low bit of the address
byte; `driver/i2c.h` is not among the sources. -/
def I2C_MASTER_READ : Nat := 1

/-- Modelled from the spec: the bus mode of the configuration; `driver/i2c.h` is
not among the sources, the number is the one ESP-IDF assigns. -/
def I2C_MODE_MASTER : Nat := 1

/-- Modelled from the spec: the default logical port, port 0; `driver/i2c.h` is
not among the sources. -/
def I2C_NUM_0 : Nat := 0

/-- Modelled from the spec: a pin role of the bus parameters; `driver/gpio.h` is
not among the sources. -/
def GPIO_NUM_22 : Nat := 22

/-- Modelled from the spec: a pin role of the bus parameters; `driver/gpio.h` is
not among the sources. -/
def GPIO_NUM_23 : Nat := 23

/-- Modelled from the spec: the pull-up enable of the bus parameters;
`driver/gpio.h` is not among the sources. -/
def GPIO_PULLUP_ENABLE : Nat := 1

/-! ## Data model -/

/-- The fields of ESP-IDF's `i2c_config_t` that the driver sets. -/
structure i2c_config_t where
  mode : Nat
  sda_io_num : Nat
  scl_io_num : Nat
  sda_pullup_en : Nat
  scl_pullup_en : Nat
  clk_speed : Nat
deriving DecidableEq, Repr

/-- The structure `si7021_config_t` of `si7021.h`. -/
structure si7021_config_t where
  sensors_config : i2c_config_t
  si7021_port : Nat
deriving DecidableEq, Repr

/-- One operation queued on an I2C command link. -/
inductive I2cOp where
  | start
  | write_byte (data : Nat) (ack_en : Bool)
  | read_byte (ack : Nat)
  | stop
deriving DecidableEq, Repr

/-- A command link (`i2c_cmd_handle_t`): the operations queued so far. -/
abbrev i2c_cmd_handle_t := List I2cOp

/-- A call the driver makes to a collaborator, in the order it is made. -/
inductive Event where
  | param_config (port : Nat) (conf : i2c_config_t)
  | driver_install (port : Nat) (mode : Nat)
  | cmd_begin (port : Nat) (cmd : i2c_cmd_handle_t) (ticks : Nat)
  | delay (ticks : Nat)
  | print (text : String)
deriving DecidableEq, Repr

/-- What the transport reports for one `i2c_master_cmd_begin`: the returned
`esp_err_t` and the bytes behind it.  For a successful transaction that reads
measurement or identifier data these are the bytes the sensor puts on the bus;
for a failed transaction they are whatever the driver's receive variables hold
afterwards (partly received or never written). -/
structure Reply where
  err : esp_err_t
  data : List Nat
deriving DecidableEq, Repr

/-- Driver globals together with the environment of the driver.

* `__si7021_config` is the global variable of `si7021.c`.
* `portTICK_PERIOD_MS` is the FreeRTOS tick period.
* `param_config_result` and `driver_install_result` are the values that
  `i2c_param_config` and `i2c_driver_install` return.
* `replies` holds the outcome of each coming `i2c_master_cmd_begin`, in order.
* `user_reg` is the sensor's RH/T user register 1; `pointer` is the command most
  recently accepted by the sensor.
* `trace` records the collaborator calls made so far. -/
structure World where
  __si7021_config : si7021_config_t
  portTICK_PERIOD_MS : Nat
  param_config_result : Nat → i2c_config_t → esp_err_t
  driver_install_result : Nat → esp_err_t
  replies : List Reply
  user_reg : Nat
  pointer : List Nat
  trace : List Event

/-- Initial value of the global `__si7021_config` (si7021.c, lines 29-32). -/
def __si7021_config_default : si7021_config_t :=
  { sensors_config :=
      { mode := I2C_MODE_MASTER, sda_io_num := GPIO_NUM_22, scl_io_num := GPIO_NUM_23,
        sda_pullup_en := GPIO_PULLUP_ENABLE, scl_pullup_en := GPIO_PULLUP_ENABLE,
        clk_speed := 400000 },
    si7021_port := I2C_NUM_0 }

/-- A world in its initial state: default configuration, tick period 1 ms, bus
configuration and driver installation succeed, empty trace; the sensor holds
`reg` in its user register and the transport will report `replies`. -/
def World.boot (reg : Nat) (replies : List Reply) : World :=
  { __si7021_config := __si7021_config_default
    portTICK_PERIOD_MS := 1
    param_config_result := fun _ _ => ESP_OK
    driver_install_result := fun _ => ESP_OK
    replies := replies
    user_reg := reg
    pointer := []
    trace := [] }

/-- A successful transaction that carries no sensor data. -/
def Reply.ok : Reply := { err := ESP_OK, data := [] }

/-- A successful transaction in which the sensor delivers `data`. -/
def Reply.bytes (data : List Nat) : Reply := { err := ESP_OK, data := data }

/-- A transaction for which the transport reports `err`, leaving zeros in the
receive variables. -/
def Reply.error (err : esp_err_t) : Reply := { err := err, data := [] }

/-! ## Collaborators: ESP-IDF I2C driver, FreeRTOS delay, console -/

def i2c_cmd_link_create : i2c_cmd_handle_t := []

def i2c_master_start (cmd : i2c_cmd_handle_t) : i2c_cmd_handle_t :=
  cmd ++ [I2cOp.start]

/-- Queue one byte to send; `data` is a `uint8_t` argument. -/
def i2c_master_write_byte (cmd : i2c_cmd_handle_t) (data : Nat) (ack_en : Bool) :
    i2c_cmd_handle_t :=
  cmd ++ [I2cOp.write_byte (data % 256) ack_en]

/-- Queue the reception of one byte.  The destination pointer of the C call is
positional here: the k-th queued read receives the k-th byte of the data that
`i2c_master_cmd_begin` returns. -/
def i2c_master_read_byte (cmd : i2c_cmd_handle_t) (ack : Nat) : i2c_cmd_handle_t :=
  cmd ++ [I2cOp.read_byte ack]

def i2c_master_stop (cmd : i2c_cmd_handle_t) : i2c_cmd_handle_t :=
  cmd ++ [I2cOp.stop]

/-- The bytes a command link sends, in order. -/
def written_bytes : i2c_cmd_handle_t → List Nat
  | [] => []
  | I2cOp.write_byte b _ :: rest => b :: written_bytes rest
  | _ :: rest => written_bytes rest

/-- The number of bytes a command link receives. -/
def read_count : i2c_cmd_handle_t → Nat
  | [] => 0
  | I2cOp.read_byte _ :: rest => read_count rest + 1
  | _ :: rest => read_count rest

/-- The sensor's side of a transaction that the transport completed.  The sensor
holds one user-register byte: a write of `SI7021_WRITERHT_REG_CMD` followed by a
value replaces it, and a read that follows `SI7021_READRHT_REG_CMD` returns it.
Any other read returns the bytes `sensor_data` (a measurement, an identifier, a
revision), and any other command is only remembered in `pointer`. -/
def device_exchange (cmd : i2c_cmd_handle_t) (sensor_data : List Nat) (w : World) :
    List Nat × World :=
  match written_bytes cmd with
  | [] => ([], w)
  | addr :: payload =>
    if addr = ((SI7021_ADDR <<< 1) ||| I2C_MASTER_WRITE) then
      match payload with
      | [] => ([], w)
      | [c, v] =>
        if c = SI7021_WRITERHT_REG_CMD then
          ([], { w with user_reg := v, pointer := [c] })
        else
          ([], { w with pointer := [c, v] })
      | p => ([], { w with pointer := p })
    else if addr = ((SI7021_ADDR <<< 1) ||| I2C_MASTER_READ) then
      let source := if w.pointer = [SI7021_READRHT_REG_CMD] then [w.user_reg] else sensor_data
      ((List.range (read_count cmd)).map (fun k => source.getD k 0 % 256), w)
    else
      ([], w)

/-- Call `i2c_master_cmd_begin`: the call is recorded, the transport reports the
next scripted outcome (a transport with no outcome left reports `ESP_FAIL`), and
only a transaction reported as `ESP_OK` reaches the sensor.  Returns the
`esp_err_t`, the content of the receive variables and the new world.  After a
failed transaction the receive variables are not to be trusted: each of them
holds the byte the reply scripts for it (any value of a `uint8_t`, zero where
the reply scripts none). -/
def i2c_master_cmd_begin (port : Nat) (cmd : i2c_cmd_handle_t) (ticks : Nat) (w : World) :
    esp_err_t × List Nat × World :=
  let w := { w with trace := w.trace ++ [Event.cmd_begin port cmd ticks] }
  match w.replies with
  | [] => (ESP_FAIL, [], w)
  | r :: rest =>
    let w := { w with replies := rest }
    if r.err ≠ ESP_OK then
      (r.err, (List.range (read_count cmd)).map (fun k => r.data.getD k 0 % 256), w)
    else (ESP_OK, (device_exchange cmd r.data w).1, (device_exchange cmd r.data w).2)

def i2c_param_config (port : Nat) (conf : i2c_config_t) (w : World) : esp_err_t × World :=
  (w.param_config_result port conf,
    { w with trace := w.trace ++ [Event.param_config port conf] })

def i2c_driver_install (port : Nat) (mode : Nat) (w : World) : esp_err_t × World :=
  (w.driver_install_result port,
    { w with trace := w.trace ++ [Event.driver_install port mode] })

def vTaskDelay (ticks : Nat) (w : World) : World :=
  { w with trace := w.trace ++ [Event.delay ticks] }

def printf (text : String) (w : World) : World :=
  { w with trace := w.trace ++ [Event.print text] }

/-- Bitwise complement of a C `int` operand, as a 32-bit pattern. -/
def bit_not (x : Nat) : Nat := (2 ^ 32 - 1) ^^^ (x % 2 ^ 32)

/-! ## CRC check (si7021.c, lines 142-165) -/

/-- Body of the `for` loop of `__is_crc_valid`, on the pair `(row, divisor)`. -/
def crc_loop_body (s : Nat × Nat) (i : Nat) : Nat × Nat :=
  let row := s.1
  let divisor := s.2
  let row := if row &&& ((1 <<< (23 - i)) % 2 ^ 32) ≠ 0 then row ^^^ divisor else row
  let divisor := divisor >>> 1
  (row, divisor)

/-- The loop `for (int i = 0; i < 16; i++)` of `__is_crc_valid`; returns `row`. -/
def crc_loop (row divisor : Nat) : Nat :=
  ((List.range 16).foldl crc_loop_body (row, divisor)).1

def __is_crc_valid (value crc : Nat) : Bool :=
  let row := (value <<< 8) % 2 ^ 32
  let row := row ||| crc
  let divisor := 0x988000
  let row := crc_loop row divisor
  row == 0

/-! ### Reference CRC-8

The textbook CRC-8: polynomial 0x31, initial value 0x00, most significant bit
first, no reflection, no final XOR. -/

/-- One shift of the 8-bit CRC register. -/
def crc8_shift (crc : Nat) : Nat :=
  if crc &&& 0x80 ≠ 0 then ((crc <<< 1) ^^^ 0x31) % 256 else (crc <<< 1) % 256

/-- Feed one byte into the CRC register. -/
def crc8_update (crc byte : Nat) : Nat :=
  crc8_shift^[8] (crc ^^^ byte)

/-- The reference CRC-8 of a 16-bit value: high byte first, then low byte. -/
def crc8_reference (v : Nat) : Nat :=
  crc8_update (crc8_update 0x00 (v >>> 8)) (v &&& 0xFF)

/-- Product in GF(2)[x] of the polynomial given by the `n` low bits of `a` with
the polynomial `b` (bit `i` is the coefficient of `x ^ i`): the XOR of
`b <<< i` over the set bits `i < n` of `a`. -/
def gf2_mul (n a b : Nat) : Nat :=
  (List.range n).foldl (fun acc i => if a.testBit i then acc ^^^ (b <<< i) else acc) 0

/-! ## Initialisation (si7021.c, lines 34-84) -/

def __si7021_param_config (config : si7021_config_t) (w : World) : Nat × World :=
  let w := { w with __si7021_config := config }
  let r := i2c_param_config w.__si7021_config.si7021_port config.sensors_config w
  let err := r.1
  let w := r.2
  if err ≠ ESP_OK then (SI7021_ERR_CONFIG, w)
  else (SI7021_ERR_OK, w)

def __si7021_driver_config (_config : si7021_config_t) (w : World) : Nat × World :=
  let r := i2c_driver_install w.__si7021_config.si7021_port I2C_MODE_MASTER w
  let err := r.1
  let w := r.2
  if err ≠ ESP_OK then (SI7021_ERR_INSTALL, w)
  else (SI7021_ERR_OK, w)

def si7021_check_availability (w : World) : Nat × World :=
  let cmd := i2c_cmd_link_create
  let cmd := i2c_master_start cmd
  let cmd := i2c_master_write_byte cmd ((SI7021_ADDR <<< 1) ||| I2C_MASTER_WRITE) true
  let cmd := i2c_master_stop cmd
  let r := i2c_master_cmd_begin w.__si7021_config.si7021_port cmd
    (1000 / w.portTICK_PERIOD_MS) w
  let err := r.1
  let w := r.2.2
  if err ≠ ESP_OK then (SI7021_ERR_NOTFOUND, w)
  else (SI7021_ERR_OK, w)

def si7021_init (config : si7021_config_t) (w : World) : Nat × World :=
  let r := __si7021_param_config config w
  let err := r.1
  let w := r.2
  if err ≠ SI7021_ERR_OK then (err, w)
  else
    let r := __si7021_driver_config config w
    let err := r.1
    let w := r.2
    if err ≠ SI7021_ERR_OK then (err, w)
    else
      let r := si7021_check_availability w
      let err := r.1
      let w := r.2
      if err ≠ SI7021_ERR_OK then (err, w)
      else (SI7021_ERR_OK, w)

/-! ## Measurements (si7021.c, lines 86-140) -/

def __si7021_read (command : Nat) (w : World) : Nat × World :=
  let cmd := i2c_cmd_link_create
  let cmd := i2c_master_start cmd
  let cmd := i2c_master_write_byte cmd ((SI7021_ADDR <<< 1) ||| I2C_MASTER_WRITE) true
  let cmd := i2c_master_write_byte cmd command true
  let cmd := i2c_master_stop cmd
  let r := i2c_master_cmd_begin w.__si7021_config.si7021_port cmd
    (1000 / w.portTICK_PERIOD_MS) w
  let err := r.1
  let w := r.2.2
  if err ≠ ESP_OK then (0, w)
  else
    let w := vTaskDelay (50 / w.portTICK_PERIOD_MS) w
    let cmd := i2c_cmd_link_create
    let cmd := i2c_master_start cmd
    let cmd := i2c_master_write_byte cmd ((SI7021_ADDR <<< 1) ||| I2C_MASTER_READ) true
    let cmd := i2c_master_read_byte cmd 0x00
    let cmd := i2c_master_read_byte cmd 0x00
    let cmd := i2c_master_read_byte cmd 0x01
    let cmd := i2c_master_stop cmd
    let r := i2c_master_cmd_begin w.__si7021_config.si7021_port cmd
      (1000 / w.portTICK_PERIOD_MS) w
    let err := r.1
    let msb := r.2.1.getD 0 0
    let lsb := r.2.1.getD 1 0
    let crc := r.2.1.getD 2 0
    let w := r.2.2
    if err ≠ ESP_OK then (0, w)
    else
      let raw_value := ((msb <<< 8) ||| lsb) % 2 ^ 16
      let w := if !(__is_crc_valid raw_value crc) then printf "CRC invalid\r\n" w else w
      (raw_value &&& 0xFFFC, w)

/-- The function returns C `float`; the model returns the exact rational value
of the returned expression, before any rounding. -/
def si7021_read_temperature (w : World) : ℚ × World :=
  let r := __si7021_read SI7021_MEASTEMP_NOHOLD_CMD w
  let raw_temp := r.1
  let w := r.2
  if raw_temp = 0 then (-999, w)
  else (((raw_temp : ℚ) * 175.72 / 65536.0) - 46.85, w)

/-- The function returns C `float`; the model returns the exact rational value
of the returned expression, before any rounding. -/
def si7021_read_humidity (w : World) : ℚ × World :=
  let r := __si7021_read SI7021_MEASRH_NOHOLD_CMD w
  let raw_humidity := r.1
  let w := r.2
  if raw_humidity = 0 then (-999, w)
  else ((125.0 * (raw_humidity : ℚ) / 65536.0) - 6.0, w)

/-! ## Reset and user register (si7021.c, lines 167-268) -/

def si7021_soft_reset (w : World) : Nat × World :=
  let cmd := i2c_cmd_link_create
  let cmd := i2c_master_start cmd
  let cmd := i2c_master_write_byte cmd ((SI7021_ADDR <<< 1) ||| I2C_MASTER_WRITE) true
  let cmd := i2c_master_write_byte cmd SI7021_SOFT_RESET_CMD true
  let cmd := i2c_master_stop cmd
  let r := i2c_master_cmd_begin w.__si7021_config.si7021_port cmd
    (1000 / w.portTICK_PERIOD_MS) w
  let err := r.1
  let w := r.2.2
  if err = ESP_ERR_INVALID_ARG then (SI7021_ERR_INVALID_ARG, w)
  else if err = ESP_FAIL then (SI7021_ERR_FAIL, w)
  else if err = ESP_ERR_INVALID_STATE then (SI7021_ERR_INVALID_STATE, w)
  else if err = ESP_ERR_TIMEOUT then (SI7021_ERR_TIMEOUT, w)
  else (SI7021_ERR_OK, w)

def __si7021_read_user_register (w : World) : Nat × World :=
  let cmd := i2c_cmd_link_create
  let cmd := i2c_master_start cmd
  let cmd := i2c_master_write_byte cmd ((SI7021_ADDR <<< 1) ||| I2C_MASTER_WRITE) true
  let cmd := i2c_master_write_byte cmd SI7021_READRHT_REG_CMD true
  let cmd := i2c_master_stop cmd
  let r := i2c_master_cmd_begin w.__si7021_config.si7021_port cmd
    (1000 / w.portTICK_PERIOD_MS) w
  let err := r.1
  let w := r.2.2
  if err ≠ ESP_OK then (0, w)
  else
    let cmd := i2c_cmd_link_create
    let cmd := i2c_master_start cmd
    let cmd := i2c_master_write_byte cmd ((SI7021_ADDR <<< 1) ||| I2C_MASTER_READ) true
    let cmd := i2c_master_read_byte cmd 0x01
    let cmd := i2c_master_stop cmd
    let r := i2c_master_cmd_begin w.__si7021_config.si7021_port cmd
      (1000 / w.portTICK_PERIOD_MS) w
    let err := r.1
    let reg_value := r.2.1.getD 0 0
    let w := r.2.2
    if err ≠ ESP_OK then (0, w)
    else (reg_value, w)

def __si7021_write_user_register (value : Nat) (w : World) : Nat × World :=
  let cmd := i2c_cmd_link_create
  let cmd := i2c_master_start cmd
  let cmd := i2c_master_write_byte cmd ((SI7021_ADDR <<< 1) ||| I2C_MASTER_WRITE) true
  let cmd := i2c_master_write_byte cmd SI7021_WRITERHT_REG_CMD true
  let cmd := i2c_master_write_byte cmd value true
  let cmd := i2c_master_stop cmd
  let r := i2c_master_cmd_begin w.__si7021_config.si7021_port cmd
    (1000 / w.portTICK_PERIOD_MS) w
  let err := r.1
  let w := r.2.2
  if err = ESP_ERR_INVALID_ARG then (SI7021_ERR_INVALID_ARG, w)
  else if err = ESP_FAIL then (SI7021_ERR_FAIL, w)
  else if err = ESP_ERR_INVALID_STATE then (SI7021_ERR_INVALID_STATE, w)
  else if err = ESP_ERR_TIMEOUT then (SI7021_ERR_TIMEOUT, w)
  else (SI7021_ERR_OK, w)

def si7021_get_resolution (w : World) : Nat × World :=
  let r := __si7021_read_user_register w
  let reg_value := r.1
  let w := r.2
  (reg_value &&& 0x81, w)

def si7021_set_resolution (resolution : Nat) (w : World) : Nat × World :=
  let r := __si7021_read_user_register w
  let current_reg_value := r.1
  let w := r.2
  let current_reg_value :=
    if resolution &&& (1 <<< 0) ≠ 0 then
      ((current_reg_value &&& bit_not (1 <<< 0)) ||| (1 <<< 0)) % 256
    else
      ((current_reg_value &&& bit_not (1 <<< 0)) ||| (0 <<< 0)) % 256
  let current_reg_value :=
    if resolution &&& (1 <<< 7) ≠ 0 then
      ((current_reg_value &&& bit_not (1 <<< 7)) ||| (1 <<< 7)) % 256
    else
      ((current_reg_value &&& bit_not (1 <<< 7)) ||| (0 <<< 7)) % 256
  __si7021_write_user_register current_reg_value w

/-! ## Firmware revision, supply status, heater (si7021.c, lines 269-369) -/

def si7021_read_firmware_rev (w : World) : Nat × World :=
  let cmd := i2c_cmd_link_create
  let cmd := i2c_master_start cmd
  let cmd := i2c_master_write_byte cmd ((SI7021_ADDR <<< 1) ||| I2C_MASTER_WRITE) true
  let cmd := i2c_master_write_byte cmd (SI7021_FIRMVERS_CMD >>> 8) true
  let cmd := i2c_master_write_byte cmd (SI7021_FIRMVERS_CMD &&& 0xFF) true
  let cmd := i2c_master_stop cmd
  let r := i2c_master_cmd_begin w.__si7021_config.si7021_port cmd
    (1000 / w.portTICK_PERIOD_MS) w
  let err := r.1
  let w := r.2.2
  if err ≠ ESP_OK then (0xEE, w)
  else
    let cmd := i2c_cmd_link_create
    let cmd := i2c_master_start cmd
    let cmd := i2c_master_write_byte cmd ((SI7021_ADDR <<< 1) ||| I2C_MASTER_READ) true
    let cmd := i2c_master_read_byte cmd 0x01
    let cmd := i2c_master_stop cmd
    let r := i2c_master_cmd_begin w.__si7021_config.si7021_port cmd
      (1000 / w.portTICK_PERIOD_MS) w
    let err := r.1
    let firmware_rev := r.2.1.getD 0 0
    let w := r.2.2
    if err ≠ ESP_OK then (0xDE, w)
    else (firmware_rev, w)

def si7021_read_vdd_status (w : World) : Nat × World :=
  let r := __si7021_read_user_register w
  let register_value := r.1
  let w := r.2
  if register_value &&& (1 <<< 6) ≠ 0 then (SI7021_VDD_LOW, w)
  else (SI7021_VDD_OK, w)

def si7021_get_heater_status (w : World) : Nat × World :=
  let r := __si7021_read_user_register w
  let register_value := r.1
  let w := r.2
  if register_value &&& (1 <<< 2) ≠ 0 then (SI7021_HEATER_ON, w)
  else (SI7021_HEATER_OFF, w)

def si7021_get_heater_register (w : World) : Nat × World :=
  let cmd := i2c_cmd_link_create
  let cmd := i2c_master_start cmd
  let cmd := i2c_master_write_byte cmd ((SI7021_ADDR <<< 1) ||| I2C_MASTER_WRITE) true
  let cmd := i2c_master_write_byte cmd SI7021_READHEATER_REG_CMD true
  let cmd := i2c_master_stop cmd
  let r := i2c_master_cmd_begin w.__si7021_config.si7021_port cmd
    (1000 / w.portTICK_PERIOD_MS) w
  let err := r.1
  let w := r.2.2
  if err ≠ ESP_OK then (0xFF, w)
  else
    let cmd := i2c_cmd_link_create
    let cmd := i2c_master_start cmd
    let cmd := i2c_master_write_byte cmd ((SI7021_ADDR <<< 1) ||| I2C_MASTER_READ) true
    let cmd := i2c_master_read_byte cmd 0x01
    let cmd := i2c_master_stop cmd
    let r := i2c_master_cmd_begin w.__si7021_config.si7021_port cmd
      (1000 / w.portTICK_PERIOD_MS) w
    let err := r.1
    let heater_register := r.2.1.getD 0 0
    let w := r.2.2
    if err ≠ ESP_OK then (0xEE, w)
    else (heater_register, w)

def si7021_set_heater_register (value : Nat) (w : World) : Nat × World :=
  let cmd := i2c_cmd_link_create
  let cmd := i2c_master_start cmd
  let cmd := i2c_master_write_byte cmd ((SI7021_ADDR <<< 1) ||| I2C_MASTER_WRITE) true
  let cmd := i2c_master_write_byte cmd SI7021_WRITEHEATER_REG_CMD true
  let cmd := i2c_master_write_byte cmd (value &&& 0xF) true
  let cmd := i2c_master_stop cmd
  let r := i2c_master_cmd_begin w.__si7021_config.si7021_port cmd
    (1000 / w.portTICK_PERIOD_MS) w
  let err := r.1
  let w := r.2.2
  if err = ESP_ERR_INVALID_ARG then (SI7021_ERR_INVALID_ARG, w)
  else if err = ESP_FAIL then (SI7021_ERR_FAIL, w)
  else if err = ESP_ERR_INVALID_STATE then (SI7021_ERR_INVALID_STATE, w)
  else if err = ESP_ERR_TIMEOUT then (SI7021_ERR_TIMEOUT, w)
  else (SI7021_ERR_OK, w)

def si7021_set_heater_status (value : Nat) (w : World) : Nat × World :=
  let r := __si7021_read_user_register w
  let current_reg_value := r.1
  let w := r.2
  let current_reg_value :=
    if value = SI7021_HEATER_ON then
      ((current_reg_value &&& bit_not (1 <<< 2)) ||| (1 <<< 2)) % 256
    else if value = SI7021_HEATER_OFF then
      ((current_reg_value &&& bit_not (1 <<< 2)) ||| (0 <<< 2)) % 256
    else current_reg_value
  __si7021_write_user_register current_reg_value w

/-! ## Electronic identifier (si7021.c, lines 370-435) -/

def get_electronic_id (w : World) : Nat × World :=
  let cmd := i2c_cmd_link_create
  let cmd := i2c_master_start cmd
  let cmd := i2c_master_write_byte cmd ((SI7021_ADDR <<< 1) ||| I2C_MASTER_WRITE) true
  let cmd := i2c_master_write_byte cmd (SI7021_ID1_CMD >>> 8) true
  let cmd := i2c_master_write_byte cmd (SI7021_ID1_CMD &&& 0xFF) true
  let cmd := i2c_master_stop cmd
  let r := i2c_master_cmd_begin w.__si7021_config.si7021_port cmd
    (1000 / w.portTICK_PERIOD_MS) w
  let err := r.1
  let w := r.2.2
  if err ≠ ESP_OK then (0xFFFFFFFFFFFFFFFF, w)
  else
    let cmd := i2c_cmd_link_create
    let cmd := i2c_master_start cmd
    let cmd := i2c_master_write_byte cmd ((SI7021_ADDR <<< 1) ||| I2C_MASTER_READ) true
    let cmd := i2c_master_read_byte cmd 0x00
    let cmd := i2c_master_read_byte cmd 0x00
    let cmd := i2c_master_read_byte cmd 0x00
    let cmd := i2c_master_read_byte cmd 0x01
    let cmd := i2c_master_stop cmd
    let r := i2c_master_cmd_begin w.__si7021_config.si7021_port cmd
      (1000 / w.portTICK_PERIOD_MS) w
    let err := r.1
    let sna_3 := r.2.1.getD 0 0
    let sna_2 := r.2.1.getD 1 0
    let sna_1 := r.2.1.getD 2 0
    let sna_0 := r.2.1.getD 3 0
    let w := r.2.2
    if err ≠ ESP_OK then (0xFFFFFFFFFFFFFFFF, w)
    else
      let cmd := i2c_cmd_link_create
      let cmd := i2c_master_start cmd
      let cmd := i2c_master_write_byte cmd ((SI7021_ADDR <<< 1) ||| I2C_MASTER_WRITE) true
      let cmd := i2c_master_write_byte cmd (SI7021_ID2_CMD >>> 8) true
      let cmd := i2c_master_write_byte cmd (SI7021_ID2_CMD &&& 0xFF) true
      let cmd := i2c_master_stop cmd
      let r := i2c_master_cmd_begin w.__si7021_config.si7021_port cmd
        (1000 / w.portTICK_PERIOD_MS) w
      let err := r.1
      let w := r.2.2
      if err ≠ ESP_OK then (0xFFFFFFFFFFFFFFFF, w)
      else
        let cmd := i2c_cmd_link_create
        let cmd := i2c_master_start cmd
        let cmd := i2c_master_write_byte cmd ((SI7021_ADDR <<< 1) ||| I2C_MASTER_READ) true
        let cmd := i2c_master_read_byte cmd 0x00
        let cmd := i2c_master_read_byte cmd 0x00
        let cmd := i2c_master_read_byte cmd 0x00
        let cmd := i2c_master_read_byte cmd 0x01
        let cmd := i2c_master_stop cmd
        let r := i2c_master_cmd_begin w.__si7021_config.si7021_port cmd
          (1000 / w.portTICK_PERIOD_MS) w
        let err := r.1
        let snb_3 := r.2.1.getD 0 0
        let snb_2 := r.2.1.getD 1 0
        let snb_1 := r.2.1.getD 2 0
        let snb_0 := r.2.1.getD 3 0
        let w := r.2.2
        if err ≠ ESP_OK then (0xFFFFFFFFFFFFFFFF, w)
        else
          let id := (sna_3 <<< 56) % 2 ^ 64
          let id := id ||| ((sna_2 <<< 48) % 2 ^ 64)
          let id := id ||| ((sna_1 <<< 40) % 2 ^ 64)
          let id := id ||| ((sna_0 <<< 32) % 2 ^ 64)
          let id := id ||| ((snb_3 <<< 24) % 2 ^ 64)
          let id := id ||| ((snb_2 <<< 16) % 2 ^ 64)
          let id := id ||| ((snb_1 <<< 8) % 2 ^ 64)
          let id := id ||| snb_0
          (id, w)

/-! ## The transactions the driver issues

Every driver function runs its command links in the same way; the links
themselves are named here so that statements can refer to them. -/

/-- Run a command link as the driver does: on the configured port, with a
timeout of 1000 ms. -/
def transact (cmd : i2c_cmd_handle_t) (w : World) : esp_err_t × List Nat × World :=
  i2c_master_cmd_begin w.__si7021_config.si7021_port cmd (1000 / w.portTICK_PERIOD_MS) w

/-- Address the sensor for writing and stop: the availability probe. -/
def link_probe : i2c_cmd_handle_t :=
  [I2cOp.start, I2cOp.write_byte 0x80 true, I2cOp.stop]

/-- Address the sensor for writing and send the listed bytes. -/
def link_send (bytes : List Nat) : i2c_cmd_handle_t :=
  [I2cOp.start, I2cOp.write_byte 0x80 true]
    ++ bytes.map (fun b => I2cOp.write_byte (b % 256) true) ++ [I2cOp.stop]

/-- Address the sensor for reading and receive `n + 1` bytes, acknowledging all
but the last one. -/
def link_receive (n : Nat) : i2c_cmd_handle_t :=
  [I2cOp.start, I2cOp.write_byte 0x81 true]
    ++ List.replicate n (I2cOp.read_byte 0x00) ++ [I2cOp.read_byte 0x01, I2cOp.stop]

/-- The event that running `cmd` in world `w` appends to the trace. -/
def transact_event (cmd : i2c_cmd_handle_t) (w : World) : Event :=
  Event.cmd_begin w.__si7021_config.si7021_port cmd (1000 / w.portTICK_PERIOD_MS)

/-- The settle delay of a measurement: 50 ms in ticks. -/
def settle (w : World) : World :=
  vTaskDelay (50 / w.portTICK_PERIOD_MS) w

/-- The transport reports success for each of the next `n` transactions. -/
def next_succeed (n : Nat) (w : World) : Prop :=
  n ≤ w.replies.length ∧ ∀ r ∈ w.replies.take n, r.err = ESP_OK

/-- The `esp_err_t` that the transport reports for the next transaction. -/
def next_outcome (w : World) : esp_err_t :=
  match w.replies with
  | [] => ESP_FAIL
  | r :: _ => r.err

/-- A world like `World.boot 0x3A replies` in which `i2c_param_config` returns
`config_err` and `i2c_driver_install` returns `install_err`. -/
def World.boot_with (config_err install_err : esp_err_t) (replies : List Reply) : World :=
  { __si7021_config := __si7021_config_default
    portTICK_PERIOD_MS := 1
    param_config_result := fun _ _ => config_err
    driver_install_result := fun _ => install_err
    replies := replies
    user_reg := 0x3A
    pointer := []
    trace := [] }

/-- The mapping of transport outcomes to driver codes as the specification
states it, for comparison with the driver: success maps to `SI7021_ERR_OK`,
argument error, generic failure, invalid peripheral state and timeout map to
the codes of the same name; the specification names no other outcome. -/
def spec_error_code (e : esp_err_t) : Option Nat :=
  if e = ESP_OK then some SI7021_ERR_OK
  else if e = ESP_ERR_INVALID_ARG then some SI7021_ERR_INVALID_ARG
  else if e = ESP_FAIL then some SI7021_ERR_FAIL
  else if e = ESP_ERR_INVALID_STATE then some SI7021_ERR_INVALID_STATE
  else if e = ESP_ERR_TIMEOUT then some SI7021_ERR_TIMEOUT
  else none

/-! # Verified properties -/

/-! ## CRC check -/

theorem crc_test_bit (row i : Nat) :
    (row &&& ((1 <<< (23 - i)) % 2 ^ 32) ≠ 0) ↔ row.testBit (23 - i) = true := by
  have hlt : 2 ^ (23 - i) < 2 ^ 32 := Nat.pow_lt_pow_right (by norm_num) (by omega)
  rw [Nat.one_shiftLeft, Nat.mod_eq_of_lt hlt, Nat.and_two_pow]
  cases h : row.testBit (23 - i) <;> simp

theorem crc_loop_body_eq (row d i : Nat) :
    crc_loop_body (row, d) i = (if row.testBit (23 - i) then row ^^^ d else row, d >>> 1) := by
  simp only [crc_loop_body]
  by_cases h : row.testBit (23 - i) = true
  · rw [if_pos ((crc_test_bit row i).2 h), if_pos h]
  · rw [if_neg (fun hh => h ((crc_test_bit row i).1 hh)), if_neg h]

theorem crc_loop_body_xor (a b d i : Nat) :
    crc_loop_body (a ^^^ b, d) i
      = ((crc_loop_body (a, d) i).1 ^^^ (crc_loop_body (b, d) i).1, d >>> 1) := by
  simp only [crc_loop_body_eq, Nat.testBit_xor]
  cases a.testBit (23 - i) <;> cases b.testBit (23 - i) <;>
    simp only [Bool.xor_false, Bool.xor_true, Bool.not_true, Bool.not_false, Bool.false_eq_true,
      if_true, if_false, Prod.mk.injEq, and_true] <;>
    apply Nat.eq_of_testBit_eq <;> intro j <;> simp only [Nat.testBit_xor] <;>
    cases a.testBit j <;> cases b.testBit j <;> cases d.testBit j <;> rfl

theorem crc_fold_xor (l : List Nat) : ∀ a b d : Nat,
    l.foldl crc_loop_body (a ^^^ b, d)
      = ((l.foldl crc_loop_body (a, d)).1 ^^^ (l.foldl crc_loop_body (b, d)).1,
          (l.foldl crc_loop_body (a, d)).2) ∧
    (l.foldl crc_loop_body (a, d)).2 = (l.foldl crc_loop_body (b, d)).2 := by
  induction l with
  | nil => intro a b d; simp
  | cons i l ih =>
    intro a b d
    simp only [List.foldl_cons]
    rw [crc_loop_body_xor]
    have ha : crc_loop_body (a, d) i = ((crc_loop_body (a, d) i).1, d >>> 1) := by
      rw [crc_loop_body_eq]
    have hb : crc_loop_body (b, d) i = ((crc_loop_body (b, d) i).1, d >>> 1) := by
      rw [crc_loop_body_eq]
    obtain ⟨h1, h2⟩ := ih (crc_loop_body (a, d) i).1 (crc_loop_body (b, d) i).1 (d >>> 1)
    rw [← ha, ← hb] at h1 h2
    exact ⟨h1, h2⟩

theorem crc_loop_xor (a b d : Nat) : crc_loop (a ^^^ b) d = crc_loop a d ^^^ crc_loop b d := by
  unfold crc_loop
  rw [(crc_fold_xor _ a b d).1]

theorem shl_or_eq_xor (v c : Nat) (hc : c < 2 ^ 8) : (v <<< 8) ||| c = (v <<< 8) ^^^ c := by
  apply Nat.eq_of_testBit_eq
  intro j
  rw [Nat.testBit_or, Nat.testBit_xor, Nat.testBit_shiftLeft]
  by_cases hj : 8 ≤ j
  · have hcj : c.testBit j = false :=
      Nat.testBit_lt_two_pow (lt_of_lt_of_le hc (Nat.pow_le_pow_right (by norm_num) hj))
    rw [hcj]; simp
  · have : decide (j ≥ 8) = false := by simpa using hj
    rw [this]; simp

theorem shl_xor_distrib (a b n : Nat) : (a ^^^ b) <<< n = (a <<< n) ^^^ (b <<< n) := by
  apply Nat.eq_of_testBit_eq
  intro j
  simp only [Nat.testBit_shiftLeft, Nat.testBit_xor]
  cases decide (j ≥ n) <;> simp

theorem split_bytes (v : Nat) : v <<< 8 = ((v >>> 8) <<< 16) ^^^ ((v &&& 0xFF) <<< 8) := by
  apply Nat.eq_of_testBit_eq
  intro j
  simp only [Nat.testBit_shiftLeft, Nat.testBit_xor, Nat.testBit_shiftRight, Nat.testBit_and]
  have h255 : (0xFF : Nat) = 2 ^ 8 - 1 := by norm_num
  rw [h255, Nat.testBit_two_pow_sub_one]
  by_cases h8 : 8 ≤ j
  · by_cases h16 : 16 ≤ j
    · have e : 8 + (j - 16) = j - 8 := by omega
      have : ¬ (j - 8 < 8) := by omega
      simp [h8, h16, e, this]
    · have : j - 8 < 8 := by omega
      simp [h8, h16, this]
  · have h16 : ¬ 16 ≤ j := by omega
    simp [h8, h16]

set_option maxRecDepth 100000 in
theorem crc_loop_low_byte : ∀ c : Fin 256, crc_loop c.val 0x988000 = c.val := by decide

set_option maxRecDepth 100000 in
theorem crc_first_half_msb : ∀ m : Fin 256,
    (List.range 8).foldl crc_loop_body (m.val <<< 16, 0x988000)
      = ((crc8_update 0x00 m.val) <<< 8, 0x9880) := by decide

set_option maxRecDepth 100000 in
theorem crc_first_half_lsb : ∀ l : Fin 256,
    ((List.range 8).foldl crc_loop_body (l.val <<< 8, 0x988000)).1 = l.val <<< 8 := by decide

set_option maxRecDepth 100000 in
theorem crc_second_half : ∀ x : Fin 256,
    ([8, 9, 10, 11, 12, 13, 14, 15].foldl crc_loop_body (x.val <<< 8, 0x9880)).1
      = crc8_shift^[8] x.val := by decide

set_option maxRecDepth 100000 in
theorem crc8_update_zero_lt : ∀ m : Fin 256, crc8_update 0x00 m.val < 256 := by decide

theorem crc_loop_eq_reference (v : Nat) (hv : v < 2 ^ 16) :
    crc_loop (v <<< 8) 0x988000 = crc8_reference v := by
  have hm : v >>> 8 < 256 := by
    rw [Nat.shiftRight_eq_div_pow]; omega
  have hl : v &&& 0xFF < 256 := by
    have h255 : (0xFF : Nat) = 2 ^ 8 - 1 := by norm_num
    rw [h255, Nat.and_pow_two_sub_one_eq_mod]; omega
  have hr : List.range 16 = List.range 8 ++ [8, 9, 10, 11, 12, 13, 14, 15] := by decide
  unfold crc_loop
  rw [hr, List.foldl_append, split_bytes, (crc_fold_xor _ _ _ _).1]
  have h1 := crc_first_half_msb ⟨v >>> 8, hm⟩
  have h2 := crc_first_half_lsb ⟨v &&& 0xFF, hl⟩
  simp only at h1 h2
  rw [h1, h2, ← shl_xor_distrib]
  have hx : crc8_update 0x00 (v >>> 8) ^^^ (v &&& 0xFF) < 256 :=
    Nat.xor_lt_two_pow (n := 8) (crc8_update_zero_lt ⟨v >>> 8, hm⟩) hl
  have h3 := crc_second_half ⟨_, hx⟩
  simp only at h3
  rw [h3]
  rfl

theorem is_crc_valid_eq (v c : Nat) (hv : v < 2 ^ 16) (hc : c < 2 ^ 8) :
    __is_crc_valid v c = (crc_loop (v <<< 8) 0x988000 ^^^ c == 0) := by
  have hlt : v <<< 8 < 2 ^ 32 := by
    rw [Nat.shiftLeft_eq]; omega
  simp only [__is_crc_valid]
  rw [Nat.mod_eq_of_lt hlt, shl_or_eq_xor v c hc, crc_loop_xor, crc_loop_low_byte ⟨c, hc⟩]

theorem gf2_mul_succ (n a b : Nat) :
    gf2_mul (n + 1) a b
      = if a.testBit n then gf2_mul n a b ^^^ (b <<< n) else gf2_mul n a b := by
  simp [gf2_mul, List.range_succ, List.foldl_append]

theorem gf2_mul_congr (n a a2 b : Nat) (h : ∀ i, i < n → a.testBit i = a2.testBit i) :
    gf2_mul n a b = gf2_mul n a2 b := by
  induction n with
  | zero => rfl
  | succ n ih =>
    rw [gf2_mul_succ, gf2_mul_succ, ih (fun i hi => h i (Nat.lt_succ_of_lt hi)),
      h n (Nat.lt_succ_self n)]

theorem crc_fold_nil_divisor (l : List Nat) (row d d2 : Nat) (h : l ≠ [] → d = d2) :
    (l.foldl crc_loop_body (row, d)).1 = (l.foldl crc_loop_body (row, d2)).1 := by
  cases l with
  | nil => rfl
  | cons i l => rw [h (by simp)]

/-- Running the loop body over `l.length` steps, starting with the divisor
`g <<< (l.length - 1)`, changes the row by a GF(2) multiple of `g`. -/
theorem crc_fold_quotient (l : List Nat) : ∀ row g : Nat,
    ∃ q, q < 2 ^ l.length ∧
      (l.foldl crc_loop_body (row, g <<< (l.length - 1))).1 = row ^^^ gf2_mul l.length q g := by
  induction l with
  | nil => intro row g; exact ⟨0, by simp, by simp [gf2_mul]⟩
  | cons i l ih =>
    intro row g
    simp only [List.foldl_cons, List.length_cons, Nat.add_sub_cancel]
    rw [crc_loop_body_eq]
    have hdiv : l ≠ [] → (g <<< l.length) >>> 1 = g <<< (l.length - 1) := by
      intro hl
      obtain ⟨k, hk⟩ : ∃ k, l.length = k + 1 := by
        cases l with
        | nil => exact absurd rfl hl
        | cons j l2 => exact ⟨l2.length, rfl⟩
      rw [hk, Nat.add_sub_cancel, Nat.shiftLeft_add, Nat.shiftLeft_shiftRight]
    rw [crc_fold_nil_divisor l _ _ _ hdiv]
    by_cases hc : row.testBit (23 - i) = true
    · obtain ⟨q, hq, hfold⟩ := ih (row ^^^ (g <<< l.length)) g
      refine ⟨q ^^^ 2 ^ l.length, ?_, ?_⟩
      · exact Nat.xor_lt_two_pow (lt_of_lt_of_le hq (Nat.pow_le_pow_right (by norm_num)
          (Nat.le_succ _))) (Nat.pow_lt_pow_right (by norm_num) (Nat.lt_succ_self _))
      · have hbit : (q ^^^ 2 ^ l.length).testBit l.length = true := by
          rw [Nat.testBit_xor, Nat.testBit_lt_two_pow hq, Nat.testBit_two_pow_self]; rfl
        have hlow : ∀ j, j < l.length →
            (q ^^^ 2 ^ l.length).testBit j = q.testBit j := by
          intro j hj
          rw [Nat.testBit_xor, Nat.testBit_two_pow_of_ne (Nat.ne_of_gt hj)]
          simp
        rw [if_pos hc, hfold, gf2_mul_succ, if_pos hbit, gf2_mul_congr _ _ q _ hlow,
          Nat.xor_assoc, Nat.xor_comm (g <<< l.length)]
    · obtain ⟨q, hq, hfold⟩ := ih row g
      refine ⟨q, lt_of_lt_of_le hq (Nat.pow_le_pow_right (by norm_num) (Nat.le_succ _)), ?_⟩
      rw [if_neg hc, hfold, gf2_mul_succ, Nat.testBit_lt_two_pow hq]
      simp

theorem crc8_shift_lt (x : Nat) : crc8_shift x < 256 := by
  unfold crc8_shift
  split <;> exact Nat.mod_lt _ (by norm_num)

theorem crc8_reference_lt (v : Nat) : crc8_reference v < 2 ^ 8 := by
  unfold crc8_reference crc8_update
  rw [Function.iterate_succ_apply']
  exact crc8_shift_lt _

/-- The reference CRC-8 is a polynomial remainder: it has degree below 8 and
differs from `v(x) * x ^ 8` by a GF(2) multiple of the generator 0x131. -/
theorem crc8_reference_is_remainder (v : Nat) (hv : v < 2 ^ 16) :
    crc8_reference v < 2 ^ 8 ∧
    ∃ q, q < 2 ^ 16 ∧ gf2_mul 16 q 0x131 ^^^ crc8_reference v = v <<< 8 := by
  refine ⟨crc8_reference_lt v, ?_⟩
  obtain ⟨q, hq, hfold⟩ := crc_fold_quotient (List.range 16) (v <<< 8) 0x131
  refine ⟨q, by simpa using hq, ?_⟩
  have hloop : crc_loop (v <<< 8) 0x988000 = (v <<< 8) ^^^ gf2_mul 16 q 0x131 := hfold
  rw [← crc_loop_eq_reference v hv, hloop, Nat.xor_comm (v <<< 8), ← Nat.xor_assoc,
    Nat.xor_self, Nat.zero_xor]

set_option maxRecDepth 100000 in
theorem crc_loop_generator_shift : ∀ i : Fin 16, crc_loop (0x131 <<< i.val) 0x988000 = 0 := by
  decide

theorem crc_loop_multiple (n q : Nat) (hn : n ≤ 16) :
    crc_loop (gf2_mul n q 0x131) 0x988000 = 0 := by
  induction n with
  | zero =>
    show crc_loop 0 0x988000 = 0
    decide
  | succ n ih =>
    have h0 := ih (Nat.le_of_succ_le hn)
    rw [gf2_mul_succ]
    split
    · rw [crc_loop_xor, h0, crc_loop_generator_shift ⟨n, hn⟩]
      rfl
    · exact h0

/-- The remainder is unique: a byte that differs from `v(x) * x ^ 8` by a GF(2)
multiple of the generator is the reference CRC-8 of `v`. -/
theorem crc8_remainder_unique (v c q : Nat) (hv : v < 2 ^ 16) (hc : c < 2 ^ 8)
    (h : gf2_mul 16 q 0x131 ^^^ c = v <<< 8) : c = crc8_reference v := by
  rw [← crc_loop_eq_reference v hv, ← h, crc_loop_xor, crc_loop_multiple 16 q (Nat.le_refl _),
    crc_loop_low_byte ⟨c, hc⟩, Nat.zero_xor]

/-- Claim C1: for every 16-bit value `v` and 8-bit check byte `c`,
`__is_crc_valid v c` is true if and only if `c` is the reference CRC-8 of `v`
(polynomial 0x31, initial value 0x00, no reflection, no final XOR, high byte
first), and that reference CRC-8 is the remainder of `v(x) * x ^ 8` divided by
the generator 0x131 over GF(2): the one byte that differs from `v <<< 8` by a
GF(2) multiple of 0x131.  In particular `__is_crc_valid 0 0` is true. -/
theorem is_crc_valid_iff_reference :
    (∀ v c : Nat, v < 2 ^ 16 → c < 2 ^ 8 →
      (__is_crc_valid v c = true ↔ c = crc8_reference v) ∧
      (c = crc8_reference v ↔ ∃ q, q < 2 ^ 16 ∧ gf2_mul 16 q 0x131 ^^^ c = v <<< 8)) ∧
    __is_crc_valid 0 0 = true := by
  refine ⟨?_, by decide⟩
  intro v c hv hc
  refine ⟨?_, ?_⟩
  · rw [is_crc_valid_eq v c hv hc, crc_loop_eq_reference v hv, beq_iff_eq, Nat.xor_eq_zero]
    exact eq_comm
  · constructor
    · intro h
      rw [h]
      exact (crc8_reference_is_remainder v hv).2
    · rintro ⟨q, -, hq⟩
      exact crc8_remainder_unique v c q hv hc hq

/-- Witness for C1: the value 0x683A with check byte 0x7C is accepted. -/
theorem is_crc_valid_iff_reference_witness :
    __is_crc_valid 0x683A 0x7C = true :=
  ((is_crc_valid_iff_reference.1 0x683A 0x7C (by decide) (by decide)).1).2 (by decide)

theorem is_crc_valid_row (v c : Nat) (hv : v < 2 ^ 16) :
    __is_crc_valid v c = (crc_loop ((v <<< 8) ||| c) 0x988000 == 0) := by
  have hlt : v <<< 8 < 2 ^ 32 := by
    rw [Nat.shiftLeft_eq]; omega
  simp only [__is_crc_valid]
  rw [Nat.mod_eq_of_lt hlt]

theorem row_rejoin (row : Nat) : ((row >>> 8) <<< 8) ||| (row &&& 0xFF) = row := by
  apply Nat.eq_of_testBit_eq
  intro j
  simp only [Nat.testBit_or, Nat.testBit_shiftLeft, Nat.testBit_shiftRight, Nat.testBit_and]
  have h255 : (0xFF : Nat) = 2 ^ 8 - 1 := by norm_num
  rw [h255, Nat.testBit_two_pow_sub_one]
  by_cases h8 : 8 ≤ j
  · have e : 8 + (j - 8) = j := by omega
    have : ¬ j < 8 := by omega
    simp [h8, e, this]
  · have : j < 8 := by omega
    simp [h8, this]

set_option maxRecDepth 100000 in
theorem crc_loop_single_bit : ∀ k : Fin 24, crc_loop (1 <<< k.val) 0x988000 ≠ 0 := by decide

/-- Claim C2: if `__is_crc_valid v c` holds, then flipping any one of the 24 bits
of the row `(v << 8) | c` and splitting the row back into value and check byte
makes `__is_crc_valid` return false. -/
theorem single_bit_flip_detected (v c k : Nat) (hv : v < 2 ^ 16) (hc : c < 2 ^ 8) (hk : k < 24)
    (hvalid : __is_crc_valid v c = true) :
    __is_crc_valid ((((v <<< 8) ||| c) ^^^ (1 <<< k)) >>> 8)
      ((((v <<< 8) ||| c) ^^^ (1 <<< k)) &&& 0xFF) = false := by
  have hrow : (v <<< 8) ||| c < 2 ^ 24 := by
    apply Nat.or_lt_two_pow
    · rw [Nat.shiftLeft_eq]; omega
    · omega
  have hbit : 1 <<< k < 2 ^ 24 := by
    rw [Nat.one_shiftLeft]; exact Nat.pow_lt_pow_right (by norm_num) hk
  have hflip : ((v <<< 8) ||| c) ^^^ (1 <<< k) < 2 ^ 24 := Nat.xor_lt_two_pow hrow hbit
  have hv2 : (((v <<< 8) ||| c) ^^^ (1 <<< k)) >>> 8 < 2 ^ 16 := by
    rw [Nat.shiftRight_eq_div_pow]; omega
  rw [is_crc_valid_row v c hv, beq_iff_eq] at hvalid
  rw [is_crc_valid_row _ _ hv2, row_rejoin, crc_loop_xor, hvalid, Nat.zero_xor]
  simpa using crc_loop_single_bit ⟨k, hk⟩

/-- Witness for C2: flipping bit 13 of the valid row 0x683A7C is detected. -/
theorem single_bit_flip_detected_witness :
    __is_crc_valid ((((0x683A <<< 8) ||| 0x7C) ^^^ (1 <<< 13)) >>> 8)
      ((((0x683A <<< 8) ||| 0x7C) ^^^ (1 <<< 13)) &&& 0xFF) = false :=
  single_bit_flip_detected 0x683A 0x7C 13 (by decide) (by decide) (by decide) (by decide)

/-! ## Measurement reads -/

theorem si7021_read_unfold (command : Nat) (w : World) :
    __si7021_read command w =
      if (transact (link_send [command]) w).1 ≠ ESP_OK then
        (0, (transact (link_send [command]) w).2.2)
      else if (transact (link_receive 2) (settle (transact (link_send [command]) w).2.2)).1
          ≠ ESP_OK then
        (0, (transact (link_receive 2) (settle (transact (link_send [command]) w).2.2)).2.2)
      else
        ((((((transact (link_receive 2)
                (settle (transact (link_send [command]) w).2.2)).2.1.getD 0 0) <<< 8)
            ||| ((transact (link_receive 2)
                (settle (transact (link_send [command]) w).2.2)).2.1.getD 1 0)) % 2 ^ 16)
            &&& 0xFFFC,
          if !(__is_crc_valid
              (((((transact (link_receive 2)
                (settle (transact (link_send [command]) w).2.2)).2.1.getD 0 0) <<< 8)
                ||| ((transact (link_receive 2)
                (settle (transact (link_send [command]) w).2.2)).2.1.getD 1 0)) % 2 ^ 16)
              ((transact (link_receive 2)
                (settle (transact (link_send [command]) w).2.2)).2.1.getD 2 0)) then
            printf "CRC invalid\r\n"
              (transact (link_receive 2) (settle (transact (link_send [command]) w).2.2)).2.2
          else (transact (link_receive 2) (settle (transact (link_send [command]) w).2.2)).2.2) := by
  rfl

theorem transact_trace (cmd : i2c_cmd_handle_t) (w : World) :
    (transact cmd w).2.2.trace = w.trace ++ [transact_event cmd w] := by
  unfold transact i2c_master_cmd_begin transact_event
  cases hr : w.replies with
  | nil => simp [hr]
  | cons r rest =>
    simp only [hr]
    by_cases he : r.err ≠ ESP_OK
    · simp [he]
    · simp only [he, if_false]
      unfold device_exchange
      split
      · rfl
      · split
        · split
          · rfl
          · split <;> rfl
          · rfl
        · split <;> rfl

theorem device_exchange_bytes_lt (cmd : i2c_cmd_handle_t) (data : List Nat) (w : World) :
    ∀ b ∈ (device_exchange cmd data w).1, b < 256 := by
  intro b hb
  unfold device_exchange at hb
  split at hb
  · simp at hb
  · split at hb
    · split at hb
      · simp at hb
      · split at hb <;> simp at hb
      · simp at hb
    · split at hb
      · simp only [List.mem_map] at hb
        obtain ⟨k, _, hk⟩ := hb
        omega
      · simp at hb

theorem transact_bytes_lt (cmd : i2c_cmd_handle_t) (w : World) :
    ∀ b ∈ (transact cmd w).2.1, b < 256 := by
  intro b hb
  unfold transact i2c_master_cmd_begin at hb
  cases hr : w.replies with
  | nil => simp [hr] at hb
  | cons r rest =>
    simp only [hr] at hb
    by_cases he : r.err ≠ ESP_OK
    · simp [he] at hb
      obtain ⟨k, _, hk⟩ := hb
      omega
    · simp only [he, if_false] at hb
      exact device_exchange_bytes_lt _ _ _ b hb

theorem si7021_read_success (command msb lsb crc : Nat) (d : List Nat) (w w1 w2 : World)
    (hcmd : transact (link_send [command]) w = (ESP_OK, d, w1))
    (hread : transact (link_receive 2) (settle w1) = (ESP_OK, [msb, lsb, crc], w2)) :
    __si7021_read command w =
      (((msb <<< 8) ||| lsb) &&& 0xFFFC,
        if __is_crc_valid ((msb <<< 8) ||| lsb) crc then w2 else printf "CRC invalid\r\n" w2) := by
  have hbytes := transact_bytes_lt (link_receive 2) (settle w1)
  rw [hread] at hbytes
  have hmsb : msb < 256 := hbytes msb (by simp)
  have hlsb : lsb < 256 := hbytes lsb (by simp)
  have h16 : ((msb <<< 8) ||| lsb) % 65536 = (msb <<< 8) ||| lsb := by
    apply Nat.mod_eq_of_lt
    apply Nat.or_lt_two_pow (n := 16)
    · rw [Nat.shiftLeft_eq]; omega
    · omega
  rw [si7021_read_unfold]
  simp only [hcmd, hread, ne_eq, not_true_eq_false, if_false, List.getD_cons_zero,
    List.getD_cons_succ, Nat.reducePow, h16]
  cases __is_crc_valid (msb <<< 8 ||| lsb) crc <;> rfl

theorem si7021_read_command_failure (command : Nat) (w : World)
    (hcmd : (transact (link_send [command]) w).1 ≠ ESP_OK) :
    __si7021_read command w = (0, (transact (link_send [command]) w).2.2) := by
  rw [si7021_read_unfold, if_pos hcmd]

theorem si7021_read_receive_failure (command : Nat) (w : World)
    (hcmd : (transact (link_send [command]) w).1 = ESP_OK)
    (hread : (transact (link_receive 2) (settle (transact (link_send [command]) w).2.2)).1
      ≠ ESP_OK) :
    __si7021_read command w =
      (0, (transact (link_receive 2) (settle (transact (link_send [command]) w).2.2)).2.2) := by
  rw [si7021_read_unfold, if_neg (not_not.mpr hcmd), if_pos hread]

/-- Claim C3: when the command transaction and the read transaction of
`__si7021_read` both succeed and the sensor delivers `msb`, `lsb`, `crc`, the
function returns `((msb << 8) | lsb) & 0xFFFC` whatever `__is_crc_valid` says (a
mismatch only prints a message), and the two low bits of the result are zero. -/
theorem si7021_read_returns_masked_value (command msb lsb crc : Nat) (d : List Nat)
    (w w1 w2 : World)
    (hcmd : transact (link_send [command]) w = (ESP_OK, d, w1))
    (hread : transact (link_receive 2) (settle w1) = (ESP_OK, [msb, lsb, crc], w2)) :
    (__si7021_read command w).1 = ((msb <<< 8) ||| lsb) &&& 0xFFFC ∧
    (__si7021_read command w).1 &&& 0x3 = 0 ∧
    (__si7021_read command w).2 =
      (if __is_crc_valid ((msb <<< 8) ||| lsb) crc then w2 else printf "CRC invalid\r\n" w2) := by
  rw [si7021_read_success command msb lsb crc d w w1 w2 hcmd hread]
  refine ⟨rfl, ?_, rfl⟩
  show ((msb <<< 8) ||| lsb) &&& 0xFFFC &&& 0x3 = 0
  have h3 : (0xFFFC : Nat) &&& 0x3 = 0 := by decide
  rw [Nat.and_assoc, h3, Nat.and_zero]

/-- Witness for C3: a read of the bytes 0x68, 0x3B with the mismatching check
byte 0x7C returns 0x6838. -/
theorem si7021_read_returns_masked_value_witness :
    (__si7021_read SI7021_MEASTEMP_NOHOLD_CMD
        (World.boot 0x3A [Reply.ok, Reply.bytes [0x68, 0x3B, 0x7C]])).1 = 0x6838 ∧
    __is_crc_valid 0x683B 0x7C = false :=
  ⟨(si7021_read_returns_masked_value SI7021_MEASTEMP_NOHOLD_CMD 0x68 0x3B 0x7C []
      (World.boot 0x3A [Reply.ok, Reply.bytes [0x68, 0x3B, 0x7C]])
      (transact (link_send [SI7021_MEASTEMP_NOHOLD_CMD])
        (World.boot 0x3A [Reply.ok, Reply.bytes [0x68, 0x3B, 0x7C]])).2.2
      (transact (link_receive 2) (settle (transact (link_send [SI7021_MEASTEMP_NOHOLD_CMD])
        (World.boot 0x3A [Reply.ok, Reply.bytes [0x68, 0x3B, 0x7C]])).2.2)).2.2
      rfl rfl).1, by decide⟩

theorem si7021_read_temperature_unfold (w : World) :
    si7021_read_temperature w =
      if (__si7021_read SI7021_MEASTEMP_NOHOLD_CMD w).1 = 0 then
        (-999, (__si7021_read SI7021_MEASTEMP_NOHOLD_CMD w).2)
      else
        ((((__si7021_read SI7021_MEASTEMP_NOHOLD_CMD w).1 : ℚ) * 175.72 / 65536.0) - 46.85,
          (__si7021_read SI7021_MEASTEMP_NOHOLD_CMD w).2) := by
  rfl

theorem si7021_read_humidity_unfold (w : World) :
    si7021_read_humidity w =
      if (__si7021_read SI7021_MEASRH_NOHOLD_CMD w).1 = 0 then
        (-999, (__si7021_read SI7021_MEASRH_NOHOLD_CMD w).2)
      else
        ((125.0 * ((__si7021_read SI7021_MEASRH_NOHOLD_CMD w).1 : ℚ) / 65536.0) - 6.0,
          (__si7021_read SI7021_MEASRH_NOHOLD_CMD w).2) := by
  rfl

/-- Claim C4, as the code has it: after a measurement read in which both
transactions succeed and the sensor delivers `msb`, `lsb`, with masked raw count
`r = ((msb << 8) | lsb) & 0xFFFC`, a raw count `r ≠ 0` makes
`si7021_read_temperature` return `r * 175.72 / 65536 - 46.85` and
`si7021_read_humidity` return `125 * r / 65536 - 6.0` (exact rationals), while
the raw count `r = 0` makes both return the sentinel -999. -/
theorem measurement_conversion (msb lsb crc : Nat) (d : List Nat) (w w1 w2 : World)
    (hread : transact (link_receive 2) (settle w1) = (ESP_OK, [msb, lsb, crc], w2)) :
    (transact (link_send [SI7021_MEASTEMP_NOHOLD_CMD]) w = (ESP_OK, d, w1) →
      (((msb <<< 8) ||| lsb) &&& 0xFFFC ≠ 0 →
        (si7021_read_temperature w).1
          = ((((msb <<< 8) ||| lsb) &&& 0xFFFC : ℕ) : ℚ) * 175.72 / 65536 - 46.85) ∧
      (((msb <<< 8) ||| lsb) &&& 0xFFFC = 0 → (si7021_read_temperature w).1 = -999)) ∧
    (transact (link_send [SI7021_MEASRH_NOHOLD_CMD]) w = (ESP_OK, d, w1) →
      (((msb <<< 8) ||| lsb) &&& 0xFFFC ≠ 0 →
        (si7021_read_humidity w).1
          = 125 * ((((msb <<< 8) ||| lsb) &&& 0xFFFC : ℕ) : ℚ) / 65536 - 6.0) ∧
      (((msb <<< 8) ||| lsb) &&& 0xFFFC = 0 → (si7021_read_humidity w).1 = -999)) := by
  refine ⟨fun hcmd => ?_, fun hcmd => ?_⟩
  · have h := si7021_read_success _ msb lsb crc d w w1 w2 hcmd hread
    rw [si7021_read_temperature_unfold, h]
    refine ⟨fun hr => ?_, fun hr => ?_⟩
    · rw [if_neg hr]; norm_num
    · rw [if_pos hr]
  · have h := si7021_read_success _ msb lsb crc d w w1 w2 hcmd hread
    rw [si7021_read_humidity_unfold, h]
    refine ⟨fun hr => ?_, fun hr => ?_⟩
    · rw [if_neg hr]; norm_num
    · rw [if_pos hr]

/-- Witness for C4: the bytes 0x68, 0x3A give raw count 0x6838, for which the
temperature is 0x6838 * 175.72 / 65536 - 46.85 and the humidity is
125 * 0x6838 / 65536 - 6.0. -/
theorem measurement_conversion_witness :
    (si7021_read_temperature (World.boot 0x3A [Reply.ok, Reply.bytes [0x68, 0x3A, 0x7C]])).1
      = ((0x6838 : ℕ) : ℚ) * 175.72 / 65536 - 46.85 ∧
    (si7021_read_humidity (World.boot 0x3A [Reply.ok, Reply.bytes [0x68, 0x3A, 0x7C]])).1
      = 125 * ((0x6838 : ℕ) : ℚ) / 65536 - 6.0 :=
  ⟨((measurement_conversion 0x68 0x3A 0x7C []
      (World.boot 0x3A [Reply.ok, Reply.bytes [0x68, 0x3A, 0x7C]])
      (transact (link_send [SI7021_MEASTEMP_NOHOLD_CMD])
        (World.boot 0x3A [Reply.ok, Reply.bytes [0x68, 0x3A, 0x7C]])).2.2
      (transact (link_receive 2) (settle (transact (link_send [SI7021_MEASTEMP_NOHOLD_CMD])
        (World.boot 0x3A [Reply.ok, Reply.bytes [0x68, 0x3A, 0x7C]])).2.2)).2.2
      rfl).1 rfl).1 (by decide),
   ((measurement_conversion 0x68 0x3A 0x7C []
      (World.boot 0x3A [Reply.ok, Reply.bytes [0x68, 0x3A, 0x7C]])
      (transact (link_send [SI7021_MEASRH_NOHOLD_CMD])
        (World.boot 0x3A [Reply.ok, Reply.bytes [0x68, 0x3A, 0x7C]])).2.2
      (transact (link_receive 2) (settle (transact (link_send [SI7021_MEASRH_NOHOLD_CMD])
        (World.boot 0x3A [Reply.ok, Reply.bytes [0x68, 0x3A, 0x7C]])).2.2)).2.2
      rfl).2 rfl).1 (by decide)⟩

/-- Counterexample to C4 as stated: both transactions succeed and the sensor
delivers the bytes 0x00, 0x00 with the matching check byte 0x00, so the raw count
is 0x0000; the calls return -999, not -46.85 and not -6.0. -/
theorem measurement_conversion_raw_zero :
    (transact (link_send [SI7021_MEASTEMP_NOHOLD_CMD])
      (World.boot 0x3A [Reply.ok, Reply.bytes [0x00, 0x00, 0x00]])).1 = ESP_OK ∧
    (transact (link_receive 2) (settle (transact (link_send [SI7021_MEASTEMP_NOHOLD_CMD])
      (World.boot 0x3A [Reply.ok, Reply.bytes [0x00, 0x00, 0x00]])).2.2)).1 = ESP_OK ∧
    (transact (link_receive 2) (settle (transact (link_send [SI7021_MEASTEMP_NOHOLD_CMD])
      (World.boot 0x3A [Reply.ok, Reply.bytes [0x00, 0x00, 0x00]])).2.2)).2.1 = [0x00, 0x00, 0x00] ∧
    __is_crc_valid 0x0000 0x00 = true ∧
    (si7021_read_temperature (World.boot 0x3A [Reply.ok, Reply.bytes [0x00, 0x00, 0x00]])).1
      = -999 ∧
    (si7021_read_temperature (World.boot 0x3A [Reply.ok, Reply.bytes [0x00, 0x00, 0x00]])).1
      ≠ (((0x0000 : ℕ) : ℚ) * 175.72 / 65536 - 46.85) ∧
    (si7021_read_humidity (World.boot 0x3A [Reply.ok, Reply.bytes [0x00, 0x00, 0x00]])).1
      = -999 ∧
    (si7021_read_humidity (World.boot 0x3A [Reply.ok, Reply.bytes [0x00, 0x00, 0x00]])).1
      ≠ (125 * ((0x0000 : ℕ) : ℚ) / 65536 - 6.0) := by
  have ht : (si7021_read_temperature
      (World.boot 0x3A [Reply.ok, Reply.bytes [0x00, 0x00, 0x00]])).1 = -999 := rfl
  have hh : (si7021_read_humidity
      (World.boot 0x3A [Reply.ok, Reply.bytes [0x00, 0x00, 0x00]])).1 = -999 := rfl
  refine ⟨rfl, rfl, rfl, by decide, ht, ?_, hh, ?_⟩
  · rw [ht]; norm_num
  · rw [hh]; norm_num

/-- Claim C5: for `si7021_read_temperature` and `si7021_read_humidity` alike, a
failing command transaction makes the call return exactly -999 after that one
transaction (no settle delay, no read transaction), and a failing read
transaction after a successful command transaction makes it return exactly
-999 as well, whatever bytes that transaction left in the receive variables:
they are neither converted nor checked. -/
theorem measurement_failure_sentinel (w : World) :
    ((transact (link_send [SI7021_MEASTEMP_NOHOLD_CMD]) w).1 ≠ ESP_OK →
      (si7021_read_temperature w).1 = -999 ∧
      (si7021_read_temperature w).2.trace
        = w.trace ++ [transact_event (link_send [SI7021_MEASTEMP_NOHOLD_CMD]) w]) ∧
    (∀ (e : esp_err_t) (d bytes : List Nat) (w1 w2 : World),
      transact (link_send [SI7021_MEASTEMP_NOHOLD_CMD]) w = (ESP_OK, d, w1) →
      transact (link_receive 2) (settle w1) = (e, bytes, w2) → e ≠ ESP_OK →
      si7021_read_temperature w = (-999, w2)) ∧
    ((transact (link_send [SI7021_MEASRH_NOHOLD_CMD]) w).1 ≠ ESP_OK →
      (si7021_read_humidity w).1 = -999 ∧
      (si7021_read_humidity w).2.trace
        = w.trace ++ [transact_event (link_send [SI7021_MEASRH_NOHOLD_CMD]) w]) ∧
    (∀ (e : esp_err_t) (d bytes : List Nat) (w1 w2 : World),
      transact (link_send [SI7021_MEASRH_NOHOLD_CMD]) w = (ESP_OK, d, w1) →
      transact (link_receive 2) (settle w1) = (e, bytes, w2) → e ≠ ESP_OK →
      si7021_read_humidity w = (-999, w2)) := by
  refine ⟨fun h => ?_, fun e d bytes w1 w2 h1 h2 he => ?_, fun h => ?_,
    fun e d bytes w1 w2 h1 h2 he => ?_⟩
  · rw [si7021_read_temperature_unfold, si7021_read_command_failure _ w h]
    exact ⟨rfl, transact_trace _ w⟩
  · have hc : (transact (link_send [SI7021_MEASTEMP_NOHOLD_CMD]) w).1 = ESP_OK := by rw [h1]
    have hr : (transact (link_receive 2)
        (settle (transact (link_send [SI7021_MEASTEMP_NOHOLD_CMD]) w).2.2)).1 ≠ ESP_OK := by
      rw [h1, h2]; exact he
    rw [si7021_read_temperature_unfold, si7021_read_receive_failure _ w hc hr, h1, h2]
    rfl
  · rw [si7021_read_humidity_unfold, si7021_read_command_failure _ w h]
    exact ⟨rfl, transact_trace _ w⟩
  · have hc : (transact (link_send [SI7021_MEASRH_NOHOLD_CMD]) w).1 = ESP_OK := by rw [h1]
    have hr : (transact (link_receive 2)
        (settle (transact (link_send [SI7021_MEASRH_NOHOLD_CMD]) w).2.2)).1 ≠ ESP_OK := by
      rw [h1, h2]; exact he
    rw [si7021_read_humidity_unfold, si7021_read_receive_failure _ w hc hr, h1, h2]
    rfl

/-- Witness for C5: a command transaction that times out yields -999 after one
call; a read transaction that fails after an acknowledged command and leaves the
bytes 0x68, 0x3A, 0x7C in the receive variables yields -999 as well, while the
same bytes from a successful read are converted. -/
theorem measurement_failure_sentinel_witness :
    ((si7021_read_temperature (World.boot 0x3A [Reply.error ESP_ERR_TIMEOUT])).1 = -999 ∧
      (si7021_read_temperature (World.boot 0x3A [Reply.error ESP_ERR_TIMEOUT])).2.trace
        = [Event.cmd_begin 0 (link_send [SI7021_MEASTEMP_NOHOLD_CMD]) 1000]) ∧
    (transact (link_receive 2) (settle (transact (link_send [SI7021_MEASTEMP_NOHOLD_CMD])
      (World.boot 0x3A [Reply.ok, Reply.mk ESP_FAIL [0x68, 0x3A, 0x7C]])).2.2)).2.1
        = [0x68, 0x3A, 0x7C] ∧
    (si7021_read_temperature
      (World.boot 0x3A [Reply.ok, Reply.mk ESP_FAIL [0x68, 0x3A, 0x7C]])).1 = -999 ∧
    ((si7021_read_humidity (World.boot 0x3A [Reply.error ESP_ERR_TIMEOUT])).1 = -999 ∧
      (si7021_read_humidity (World.boot 0x3A [Reply.error ESP_ERR_TIMEOUT])).2.trace
        = [Event.cmd_begin 0 (link_send [SI7021_MEASRH_NOHOLD_CMD]) 1000]) ∧
    (si7021_read_humidity
      (World.boot 0x3A [Reply.ok, Reply.mk ESP_FAIL [0x68, 0x3A, 0x7C]])).1 = -999 ∧
    (__si7021_read SI7021_MEASTEMP_NOHOLD_CMD
      (World.boot 0x3A [Reply.ok, Reply.mk ESP_OK [0x68, 0x3A, 0x7C]])).1 = 0x6838 :=
  ⟨(measurement_failure_sentinel (World.boot 0x3A [Reply.error ESP_ERR_TIMEOUT])).1 (by decide),
   by decide,
   congrArg Prod.fst ((measurement_failure_sentinel
      (World.boot 0x3A [Reply.ok, Reply.mk ESP_FAIL [0x68, 0x3A, 0x7C]])).2.1
      ESP_FAIL [] [0x68, 0x3A, 0x7C]
      (transact (link_send [SI7021_MEASTEMP_NOHOLD_CMD])
        (World.boot 0x3A [Reply.ok, Reply.mk ESP_FAIL [0x68, 0x3A, 0x7C]])).2.2
      (transact (link_receive 2) (settle (transact (link_send [SI7021_MEASTEMP_NOHOLD_CMD])
        (World.boot 0x3A [Reply.ok, Reply.mk ESP_FAIL [0x68, 0x3A, 0x7C]])).2.2)).2.2
      rfl rfl (by decide)),
   (measurement_failure_sentinel (World.boot 0x3A [Reply.error ESP_ERR_TIMEOUT])).2.2.1
      (by decide),
   congrArg Prod.fst ((measurement_failure_sentinel
      (World.boot 0x3A [Reply.ok, Reply.mk ESP_FAIL [0x68, 0x3A, 0x7C]])).2.2.2
      ESP_FAIL [] [0x68, 0x3A, 0x7C]
      (transact (link_send [SI7021_MEASRH_NOHOLD_CMD])
        (World.boot 0x3A [Reply.ok, Reply.mk ESP_FAIL [0x68, 0x3A, 0x7C]])).2.2
      (transact (link_receive 2) (settle (transact (link_send [SI7021_MEASRH_NOHOLD_CMD])
        (World.boot 0x3A [Reply.ok, Reply.mk ESP_FAIL [0x68, 0x3A, 0x7C]])).2.2)).2.2
      rfl rfl (by decide)),
   by decide⟩


/-! ## User register -/

theorem transact_send_ok (bytes : List Nat) (w : World) (r : Reply) (rest : List Reply)
    (hw : w.replies = r :: rest) (hr : r.err = ESP_OK) :
    transact (link_send bytes) w =
      (ESP_OK, (device_exchange (link_send bytes) r.data
          { w with trace := w.trace ++ [transact_event (link_send bytes) w], replies := rest }).1,
        (device_exchange (link_send bytes) r.data
          { w with trace := w.trace ++ [transact_event (link_send bytes) w], replies := rest }).2) := by
  unfold transact i2c_master_cmd_begin transact_event
  simp only [hw, hr, ne_eq, not_true_eq_false, if_false]

theorem transact_read_register_command (w : World) (r : Reply) (rest : List Reply)
    (hw : w.replies = r :: rest) (hr : r.err = ESP_OK) :
    transact (link_send [SI7021_READRHT_REG_CMD]) w =
      (ESP_OK, [],
        { w with trace := w.trace ++ [transact_event (link_send [SI7021_READRHT_REG_CMD]) w],
                 replies := rest, pointer := [SI7021_READRHT_REG_CMD] }) := by
  unfold transact i2c_master_cmd_begin transact_event
  simp only [hw, hr, ne_eq, not_true_eq_false, if_false]
  rfl

theorem transact_receive_register (w : World) (r : Reply) (rest : List Reply)
    (hw : w.replies = r :: rest) (hr : r.err = ESP_OK)
    (hp : w.pointer = [SI7021_READRHT_REG_CMD]) :
    transact (link_receive 0) w =
      (ESP_OK, [w.user_reg % 256],
        { w with trace := w.trace ++ [transact_event (link_receive 0) w], replies := rest }) := by
  unfold transact i2c_master_cmd_begin transact_event
  simp only [hw, hr, ne_eq, not_true_eq_false, if_false]
  simp [device_exchange, link_receive, written_bytes, read_count, hp, SI7021_ADDR,
    I2C_MASTER_WRITE, I2C_MASTER_READ]
  rfl

theorem transact_write_register (value : Nat) (w : World) (r : Reply) (rest : List Reply)
    (hw : w.replies = r :: rest) (hr : r.err = ESP_OK) :
    transact (link_send [SI7021_WRITERHT_REG_CMD, value]) w =
      (ESP_OK, [],
        { w with trace := w.trace ++ [transact_event (link_send [SI7021_WRITERHT_REG_CMD, value]) w],
                 replies := rest, user_reg := value % 256,
                 pointer := [SI7021_WRITERHT_REG_CMD] }) := by
  unfold transact i2c_master_cmd_begin transact_event
  simp only [hw, hr, ne_eq, not_true_eq_false, if_false]
  simp [device_exchange, link_send, written_bytes, SI7021_ADDR, I2C_MASTER_WRITE,
    SI7021_WRITERHT_REG_CMD]

theorem read_user_register_unfold (w : World) :
    __si7021_read_user_register w =
      if (transact (link_send [SI7021_READRHT_REG_CMD]) w).1 ≠ ESP_OK then
        (0, (transact (link_send [SI7021_READRHT_REG_CMD]) w).2.2)
      else if (transact (link_receive 0)
          (transact (link_send [SI7021_READRHT_REG_CMD]) w).2.2).1 ≠ ESP_OK then
        (0, (transact (link_receive 0) (transact (link_send [SI7021_READRHT_REG_CMD]) w).2.2).2.2)
      else
        ((transact (link_receive 0)
            (transact (link_send [SI7021_READRHT_REG_CMD]) w).2.2).2.1.getD 0 0,
          (transact (link_receive 0) (transact (link_send [SI7021_READRHT_REG_CMD]) w).2.2).2.2) := by
  rfl

theorem write_user_register_unfold (value : Nat) (w : World) :
    __si7021_write_user_register value w =
      if (transact (link_send [SI7021_WRITERHT_REG_CMD, value]) w).1 = ESP_ERR_INVALID_ARG then
        (SI7021_ERR_INVALID_ARG, (transact (link_send [SI7021_WRITERHT_REG_CMD, value]) w).2.2)
      else if (transact (link_send [SI7021_WRITERHT_REG_CMD, value]) w).1 = ESP_FAIL then
        (SI7021_ERR_FAIL, (transact (link_send [SI7021_WRITERHT_REG_CMD, value]) w).2.2)
      else if (transact (link_send [SI7021_WRITERHT_REG_CMD, value]) w).1
          = ESP_ERR_INVALID_STATE then
        (SI7021_ERR_INVALID_STATE, (transact (link_send [SI7021_WRITERHT_REG_CMD, value]) w).2.2)
      else if (transact (link_send [SI7021_WRITERHT_REG_CMD, value]) w).1 = ESP_ERR_TIMEOUT then
        (SI7021_ERR_TIMEOUT, (transact (link_send [SI7021_WRITERHT_REG_CMD, value]) w).2.2)
      else (SI7021_ERR_OK, (transact (link_send [SI7021_WRITERHT_REG_CMD, value]) w).2.2) := by
  rfl

/-- With both transactions reported successful, `__si7021_read_user_register`
returns the sensor's user register and consumes two replies. -/
theorem read_user_register_ok (w : World) (r1 r2 : Reply) (rest : List Reply)
    (hw : w.replies = r1 :: r2 :: rest) (h1 : r1.err = ESP_OK) (h2 : r2.err = ESP_OK) :
    __si7021_read_user_register w =
      (w.user_reg % 256,
        { w with
          trace := w.trace ++ [transact_event (link_send [SI7021_READRHT_REG_CMD]) w,
            transact_event (link_receive 0) w],
          replies := rest, pointer := [SI7021_READRHT_REG_CMD] }) := by
  rw [read_user_register_unfold, transact_read_register_command w r1 (r2 :: rest) hw h1]
  simp only [ne_eq, not_true_eq_false, if_false]
  rw [transact_receive_register _ r2 rest rfl h2 rfl]
  simp [transact_event]

/-- With the transaction reported successful, `__si7021_write_user_register`
returns `SI7021_ERR_OK` and the sensor's user register holds the written byte. -/
theorem write_user_register_ok (value : Nat) (w : World) (r : Reply) (rest : List Reply)
    (hw : w.replies = r :: rest) (hr : r.err = ESP_OK) :
    __si7021_write_user_register value w =
      (SI7021_ERR_OK,
        { w with
          trace := w.trace ++ [transact_event (link_send [SI7021_WRITERHT_REG_CMD, value]) w],
          replies := rest, user_reg := value % 256, pointer := [SI7021_WRITERHT_REG_CMD] }) := by
  rw [write_user_register_unfold, transact_write_register value w r rest hw hr]
  simp [ESP_OK, ESP_ERR_INVALID_ARG, ESP_FAIL, ESP_ERR_INVALID_STATE, ESP_ERR_TIMEOUT]
theorem next_succeed_step (n : Nat) (w : World) (h : next_succeed (n + 1) w) :
    ∃ r rest, w.replies = r :: rest ∧ r.err = ESP_OK ∧
      ∀ w2 : World, w2.replies = rest → next_succeed n w2 := by
  obtain ⟨hlen, hall⟩ := h
  cases hr : w.replies with
  | nil => rw [hr] at hlen; simp at hlen
  | cons r rest =>
    rw [hr] at hlen hall
    refine ⟨r, rest, rfl, hall r (by simp), ?_⟩
    intro w2 hw2
    refine ⟨by rw [hw2]; simpa using hlen, ?_⟩
    intro x hx
    rw [hw2] at hx
    exact hall x (by simp [List.take_succ_cons, hx])

theorem set_resolution_unfold (resolution : Nat) (w : World) :
    si7021_set_resolution resolution w =
      __si7021_write_user_register
        (if resolution &&& (1 <<< 7) ≠ 0 then
          (((if resolution &&& (1 <<< 0) ≠ 0 then
              (((__si7021_read_user_register w).1 &&& bit_not (1 <<< 0)) ||| (1 <<< 0)) % 256
            else
              (((__si7021_read_user_register w).1 &&& bit_not (1 <<< 0)) ||| (0 <<< 0)) % 256)
            &&& bit_not (1 <<< 7)) ||| (1 <<< 7)) % 256
        else
          (((if resolution &&& (1 <<< 0) ≠ 0 then
              (((__si7021_read_user_register w).1 &&& bit_not (1 <<< 0)) ||| (1 <<< 0)) % 256
            else
              (((__si7021_read_user_register w).1 &&& bit_not (1 <<< 0)) ||| (0 <<< 0)) % 256)
            &&& bit_not (1 <<< 7)) ||| (0 <<< 7)) % 256)
        (__si7021_read_user_register w).2 := by
  rfl

set_option maxRecDepth 100000 in
theorem resolution_bits_of_code : ∀ c : Fin 256,
    c.val &&& 0x81 = (if c.val &&& (1 <<< 0) ≠ 0 then 0x01 else 0x00)
      ||| (if c.val &&& (1 <<< 7) ≠ 0 then 0x80 else 0x00) := by decide

set_option maxRecDepth 100000 in
theorem resolution_merge_register : ∀ r : Fin 256,
    ((((r.val &&& bit_not (1 <<< 0)) ||| (1 <<< 0)) % 256 &&& bit_not (1 <<< 7)) ||| (1 <<< 7))
        % 256 = (r.val &&& 0x7E) ||| 0x81 ∧
    ((((r.val &&& bit_not (1 <<< 0)) ||| (0 <<< 0)) % 256 &&& bit_not (1 <<< 7)) ||| (1 <<< 7))
        % 256 = (r.val &&& 0x7E) ||| 0x80 ∧
    ((((r.val &&& bit_not (1 <<< 0)) ||| (1 <<< 0)) % 256 &&& bit_not (1 <<< 7)) ||| (0 <<< 7))
        % 256 = (r.val &&& 0x7E) ||| 0x01 ∧
    ((((r.val &&& bit_not (1 <<< 0)) ||| (0 <<< 0)) % 256 &&& bit_not (1 <<< 7)) ||| (0 <<< 7))
        % 256 = (r.val &&& 0x7E) ||| 0x00 := by decide

/-- The byte `si7021_set_resolution` computes from the register value `r` it
read and the argument `c`. -/
theorem resolution_merge (r c : Nat) (hr : r < 256) (hc : c < 256) :
    (if c &&& (1 <<< 7) ≠ 0 then
      (((if c &&& (1 <<< 0) ≠ 0 then ((r &&& bit_not (1 <<< 0)) ||| (1 <<< 0)) % 256
        else ((r &&& bit_not (1 <<< 0)) ||| (0 <<< 0)) % 256)
        &&& bit_not (1 <<< 7)) ||| (1 <<< 7)) % 256
    else
      (((if c &&& (1 <<< 0) ≠ 0 then ((r &&& bit_not (1 <<< 0)) ||| (1 <<< 0)) % 256
        else ((r &&& bit_not (1 <<< 0)) ||| (0 <<< 0)) % 256)
        &&& bit_not (1 <<< 7)) ||| (0 <<< 7)) % 256)
      = (r &&& 0x7E) ||| (c &&& 0x81) := by
  have hc2 := resolution_bits_of_code ⟨c, hc⟩
  obtain ⟨m11, m01, m10, m00⟩ := resolution_merge_register ⟨r, hr⟩
  simp only at hc2 m11 m01 m10 m00
  rw [hc2]
  by_cases h0 : c &&& (1 <<< 0) ≠ 0 <;> by_cases h7 : c &&& (1 <<< 7) ≠ 0
  · rw [if_pos h7, if_pos h0, if_pos h0, if_pos h7, m11]; rfl
  · rw [if_neg h7, if_pos h0, if_pos h0, if_neg h7, m10]; rfl
  · rw [if_pos h7, if_neg h0, if_neg h0, if_pos h7, m01]; rfl
  · rw [if_neg h7, if_neg h0, if_neg h0, if_neg h7, m00]; rfl

/-- Claim C6: with the sensor holding one user-register byte `r` and all bus
transactions succeeding, `si7021_set_resolution c` returns `SI7021_ERR_OK` and
leaves the register equal to `(r & 0x7E) | (c & 0x81)`; a following
`si7021_get_resolution` returns `c & 0x81`, which is `c` itself for each of the
four resolution codes 0x00, 0x01, 0x80, 0x81. -/
theorem set_resolution_then_get (c : Nat) (w : World) (hc : c < 256)
    (hreg : w.user_reg < 256) (hok : next_succeed 5 w) :
    (si7021_set_resolution c w).1 = SI7021_ERR_OK ∧
    (si7021_set_resolution c w).2.user_reg = (w.user_reg &&& 0x7E) ||| (c &&& 0x81) ∧
    (si7021_get_resolution (si7021_set_resolution c w).2).1 = c &&& 0x81 ∧
    ((c = SI7021_12_14_RES ∨ c = SI7021_8_12_RES ∨ c = SI7021_10_13_RES ∨ c = SI7021_11_11_RES) →
      (si7021_get_resolution (si7021_set_resolution c w).2).1 = c) := by
  obtain ⟨r1, l1, hw1, e1, hok⟩ := next_succeed_step 4 w hok
  obtain ⟨r2, l2, hw2, e2, hok⟩ := next_succeed_step 3 { w with replies := l1 } (hok _ rfl)
  obtain ⟨r3, l3, hw3, e3, hok⟩ := next_succeed_step 2 { w with replies := l2 } (hok _ rfl)
  obtain ⟨r4, l4, hw4, e4, hok⟩ := next_succeed_step 1 { w with replies := l3 } (hok _ rfl)
  obtain ⟨r5, l5, hw5, e5, -⟩ := next_succeed_step 0 { w with replies := l4 } (hok _ rfl)
  simp only at hw2 hw3 hw4 hw5
  subst hw2 hw3 hw4 hw5
  have hv : (w.user_reg &&& 0x7E) ||| (c &&& 0x81) < 256 :=
    Nat.or_lt_two_pow (n := 8) (Nat.and_lt_two_pow _ (by norm_num))
      (Nat.and_lt_two_pow _ (by norm_num))
  have hget : ((w.user_reg &&& 0x7E) ||| (c &&& 0x81)) &&& 0x81 = c &&& 0x81 := by
    rw [Nat.and_comm, Nat.and_or_distrib_left, Nat.and_comm 0x81 (w.user_reg &&& 0x7E),
      Nat.and_assoc, Nat.and_comm 0x81 (c &&& 0x81), Nat.and_assoc]
    have h1 : (0x7E : Nat) &&& 0x81 = 0 := by decide
    have h2 : (0x81 : Nat) &&& 0x81 = 0x81 := by decide
    rw [h1, h2, Nat.and_zero, Nat.zero_or]
  have hset : si7021_set_resolution c w =
      (SI7021_ERR_OK,
        { w with
          trace := w.trace ++ [transact_event (link_send [SI7021_READRHT_REG_CMD]) w,
            transact_event (link_receive 0) w,
            transact_event (link_send [SI7021_WRITERHT_REG_CMD,
              (w.user_reg &&& 0x7E) ||| (c &&& 0x81)]) w],
          replies := r4 :: r5 :: l5,
          user_reg := (w.user_reg &&& 0x7E) ||| (c &&& 0x81),
          pointer := [SI7021_WRITERHT_REG_CMD] }) := by
    rw [set_resolution_unfold, read_user_register_ok w r1 r2 (r3 :: r4 :: r5 :: l5) hw1 e1 e2]
    simp only [Nat.mod_eq_of_lt hreg]
    rw [resolution_merge w.user_reg c hreg hc, write_user_register_ok _ _ r3 (r4 :: r5 :: l5) rfl e3]
    simp [Nat.mod_eq_of_lt hv, transact_event]
  have hgetres : (si7021_get_resolution (si7021_set_resolution c w).2).1 = c &&& 0x81 := by
    rw [hset]
    show (__si7021_read_user_register _).1 &&& 0x81 = c &&& 0x81
    rw [read_user_register_ok _ r4 r5 l5 rfl e4 e5]
    simp only [Nat.mod_eq_of_lt hv]
    exact hget
  refine ⟨by rw [hset], by rw [hset], hgetres, ?_⟩
  intro hcode
  rw [hgetres]
  rcases hcode with h | h | h | h <;> subst h <;> decide

/-- Witness for C6: from register value 0x3A, `si7021_set_resolution 0x81`
leaves 0xBB in the register (bits 1 to 6 are those of 0x3A) and
`si7021_get_resolution` then returns 0x81. -/
theorem set_resolution_then_get_witness :
    (si7021_set_resolution 0x81
      (World.boot 0x3A [Reply.ok, Reply.ok, Reply.ok, Reply.ok, Reply.ok])).2.user_reg = 0xBB ∧
    (0xBB : Nat) &&& 0x7E = 0x3A &&& 0x7E ∧
    (si7021_get_resolution (si7021_set_resolution 0x81
      (World.boot 0x3A [Reply.ok, Reply.ok, Reply.ok, Reply.ok, Reply.ok])).2).1 = 0x81 :=
  ⟨(set_resolution_then_get 0x81
      (World.boot 0x3A [Reply.ok, Reply.ok, Reply.ok, Reply.ok, Reply.ok])
      (by decide) (by decide) ⟨by decide, by decide⟩).2.1,
   by decide,
   (set_resolution_then_get 0x81
      (World.boot 0x3A [Reply.ok, Reply.ok, Reply.ok, Reply.ok, Reply.ok])
      (by decide) (by decide) ⟨by decide, by decide⟩).2.2.2 (by decide)⟩

theorem set_heater_status_unfold (value : Nat) (w : World) :
    si7021_set_heater_status value w =
      __si7021_write_user_register
        (if value = SI7021_HEATER_ON then
          (((__si7021_read_user_register w).1 &&& bit_not (1 <<< 2)) ||| (1 <<< 2)) % 256
        else if value = SI7021_HEATER_OFF then
          (((__si7021_read_user_register w).1 &&& bit_not (1 <<< 2)) ||| (0 <<< 2)) % 256
        else (__si7021_read_user_register w).1)
        (__si7021_read_user_register w).2 := by
  rfl

theorem get_heater_status_unfold (w : World) :
    si7021_get_heater_status w =
      if (__si7021_read_user_register w).1 &&& (1 <<< 2) ≠ 0 then
        (SI7021_HEATER_ON, (__si7021_read_user_register w).2)
      else (SI7021_HEATER_OFF, (__si7021_read_user_register w).2) := by
  rfl

set_option maxRecDepth 100000 in
theorem heater_bit_merge : ∀ r : Fin 256,
    ((r.val &&& bit_not (1 <<< 2)) ||| (1 <<< 2)) % 256 = r.val ||| 0x04 ∧
    ((r.val &&& bit_not (1 <<< 2)) ||| (0 <<< 2)) % 256 = r.val &&& 0xFB ∧
    (r.val ||| 0x04) &&& (1 <<< 2) ≠ 0 ∧
    (r.val &&& 0xFB) &&& (1 <<< 2) = 0 ∧
    (r.val ||| 0x04) &&& 0xFB = r.val &&& 0xFB ∧
    (r.val &&& 0xFB) &&& 0xFB = r.val &&& 0xFB ∧
    r.val ||| 0x04 < 256 ∧ r.val &&& 0xFB < 256 := by decide

/-- With all three transactions reported successful, `si7021_set_heater_status`
writes the merged byte and returns `SI7021_ERR_OK`. -/
theorem set_heater_status_ok (value : Nat) (w : World) (r1 r2 r3 : Reply) (rest : List Reply)
    (hreg : w.user_reg < 256) (hw : w.replies = r1 :: r2 :: r3 :: rest)
    (e1 : r1.err = ESP_OK) (e2 : r2.err = ESP_OK) (e3 : r3.err = ESP_OK) :
    (si7021_set_heater_status value w).1 = SI7021_ERR_OK ∧
    (si7021_set_heater_status value w).2.user_reg =
      (if value = SI7021_HEATER_ON then w.user_reg ||| 0x04
        else if value = SI7021_HEATER_OFF then w.user_reg &&& 0xFB else w.user_reg) ∧
    (si7021_set_heater_status value w).2.replies = rest := by
  obtain ⟨hon, hoff, -, -, -, -, hlt1, hlt2⟩ := heater_bit_merge ⟨w.user_reg, hreg⟩
  simp only at hon hoff hlt1 hlt2
  rw [set_heater_status_unfold, read_user_register_ok w r1 r2 (r3 :: rest) hw e1 e2]
  simp only [Nat.mod_eq_of_lt hreg]
  rw [write_user_register_ok _ _ r3 rest rfl e3, hon, hoff]
  refine ⟨rfl, ?_, rfl⟩
  show _ % 256 = _
  split
  · exact Nat.mod_eq_of_lt hlt1
  · split
    · exact Nat.mod_eq_of_lt hlt2
    · exact Nat.mod_eq_of_lt hreg

/-- With both transactions reported successful, `si7021_get_heater_status`
reports bit 2 of the sensor's user register. -/
theorem get_heater_status_ok (w : World) (r1 r2 : Reply) (rest : List Reply)
    (hreg : w.user_reg < 256) (hw : w.replies = r1 :: r2 :: rest)
    (e1 : r1.err = ESP_OK) (e2 : r2.err = ESP_OK) :
    (si7021_get_heater_status w).1 =
      if w.user_reg &&& (1 <<< 2) ≠ 0 then SI7021_HEATER_ON else SI7021_HEATER_OFF := by
  rw [get_heater_status_unfold, read_user_register_ok w r1 r2 rest hw e1 e2]
  simp only [Nat.mod_eq_of_lt hreg]
  split <;> rfl

/-- Claim C7: with the sensor holding one user-register byte `r` and all bus
transactions succeeding, `si7021_set_heater_status SI7021_HEATER_ON` leaves the
register equal to `r | 0x04` and a following `si7021_get_heater_status` returns
`SI7021_HEATER_ON`; with `SI7021_HEATER_OFF` the register becomes `r & 0xFB` and
the following get returns `SI7021_HEATER_OFF`.  In both cases every bit other
than bit 2 (mask 0xFB, which includes the resolution bits 0 and 7) is
unchanged. -/
theorem set_heater_status_then_get (w : World) (hreg : w.user_reg < 256)
    (hok : next_succeed 5 w) :
    ((si7021_set_heater_status SI7021_HEATER_ON w).1 = SI7021_ERR_OK ∧
      (si7021_set_heater_status SI7021_HEATER_ON w).2.user_reg = w.user_reg ||| 0x04 ∧
      (si7021_get_heater_status (si7021_set_heater_status SI7021_HEATER_ON w).2).1
        = SI7021_HEATER_ON ∧
      (si7021_set_heater_status SI7021_HEATER_ON w).2.user_reg &&& 0xFB
        = w.user_reg &&& 0xFB) ∧
    ((si7021_set_heater_status SI7021_HEATER_OFF w).1 = SI7021_ERR_OK ∧
      (si7021_set_heater_status SI7021_HEATER_OFF w).2.user_reg = w.user_reg &&& 0xFB ∧
      (si7021_get_heater_status (si7021_set_heater_status SI7021_HEATER_OFF w).2).1
        = SI7021_HEATER_OFF ∧
      (si7021_set_heater_status SI7021_HEATER_OFF w).2.user_reg &&& 0xFB
        = w.user_reg &&& 0xFB) := by
  obtain ⟨r1, l1, hw1, e1, hok⟩ := next_succeed_step 4 w hok
  obtain ⟨r2, l2, hw2, e2, hok⟩ := next_succeed_step 3 { w with replies := l1 } (hok _ rfl)
  obtain ⟨r3, l3, hw3, e3, hok⟩ := next_succeed_step 2 { w with replies := l2 } (hok _ rfl)
  obtain ⟨r4, l4, hw4, e4, hok⟩ := next_succeed_step 1 { w with replies := l3 } (hok _ rfl)
  obtain ⟨r5, l5, hw5, e5, -⟩ := next_succeed_step 0 { w with replies := l4 } (hok _ rfl)
  simp only at hw2 hw3 hw4 hw5
  subst hw2 hw3 hw4 hw5
  obtain ⟨-, -, hbit1, hbit0, hk1, hk0, hlt1, hlt0⟩ := heater_bit_merge ⟨w.user_reg, hreg⟩
  simp only at hbit1 hbit0 hk1 hk0 hlt1 hlt0
  obtain ⟨on1, on2, on3⟩ := set_heater_status_ok SI7021_HEATER_ON w r1 r2 r3 (r4 :: r5 :: l5)
    hreg hw1 e1 e2 e3
  obtain ⟨off1, off2, off3⟩ := set_heater_status_ok SI7021_HEATER_OFF w r1 r2 r3 (r4 :: r5 :: l5)
    hreg hw1 e1 e2 e3
  rw [if_pos rfl] at on2
  rw [if_neg (by decide), if_pos rfl] at off2
  refine ⟨⟨on1, on2, ?_, by rw [on2]; exact hk1⟩, ⟨off1, off2, ?_, by rw [off2]; exact hk0⟩⟩
  · rw [get_heater_status_ok _ r4 r5 l5 (by rw [on2]; exact hlt1) on3 e4 e5, on2, if_pos hbit1]
  · rw [get_heater_status_ok _ r4 r5 l5 (by rw [off2]; exact hlt0) off3 e4 e5, off2,
      if_neg (not_not.mpr hbit0)]

/-- Witness for C7: from register value 0x3A the heater is switched on
(register 0x3E), and from 0x3E it is switched off (register 0x3A). -/
theorem set_heater_status_then_get_witness :
    (si7021_set_heater_status SI7021_HEATER_ON
      (World.boot 0x3A [Reply.ok, Reply.ok, Reply.ok, Reply.ok, Reply.ok])).2.user_reg = 0x3E ∧
    (si7021_get_heater_status (si7021_set_heater_status SI7021_HEATER_OFF
      (World.boot 0x3E [Reply.ok, Reply.ok, Reply.ok, Reply.ok, Reply.ok])).2).1
        = SI7021_HEATER_OFF :=
  ⟨(set_heater_status_then_get
      (World.boot 0x3A [Reply.ok, Reply.ok, Reply.ok, Reply.ok, Reply.ok])
      (by decide) ⟨by decide, by decide⟩).1.2.1,
   (set_heater_status_then_get
      (World.boot 0x3E [Reply.ok, Reply.ok, Reply.ok, Reply.ok, Reply.ok])
      (by decide) ⟨by decide, by decide⟩).2.2.2.1⟩

/-! ## Register writes after a failed register read -/

/-- Claim C8, evaluated on the code at a failing input: the sensor holds 0x3A,
the transaction that sends `SI7021_READRHT_REG_CMD` fails and the write
transaction succeeds.  `si7021_set_resolution 0x81` then writes 0x81, which
differs from 0x3A on bits 1 to 6, and `si7021_set_heater_status SI7021_HEATER_ON`
writes 0x04, which differs from 0x3A outside bit 2; both report `SI7021_ERR_OK`.
The same happens when the command is acknowledged and the one-byte read fails. -/
theorem set_register_after_failed_read :
    (si7021_set_resolution 0x81 (World.boot 0x3A [Reply.error ESP_FAIL, Reply.ok])).1
      = SI7021_ERR_OK ∧
    (si7021_set_resolution 0x81 (World.boot 0x3A [Reply.error ESP_FAIL, Reply.ok])).2.trace
      = [Event.cmd_begin 0 (link_send [SI7021_READRHT_REG_CMD]) 1000,
         Event.cmd_begin 0 (link_send [SI7021_WRITERHT_REG_CMD, 0x81]) 1000] ∧
    (si7021_set_resolution 0x81 (World.boot 0x3A [Reply.error ESP_FAIL, Reply.ok])).2.user_reg
      = 0x81 ∧
    (0x81 : Nat) &&& 0x7E ≠ 0x3A &&& 0x7E ∧
    (si7021_set_heater_status SI7021_HEATER_ON
      (World.boot 0x3A [Reply.error ESP_FAIL, Reply.ok])).1 = SI7021_ERR_OK ∧
    (si7021_set_heater_status SI7021_HEATER_ON
      (World.boot 0x3A [Reply.error ESP_FAIL, Reply.ok])).2.trace
      = [Event.cmd_begin 0 (link_send [SI7021_READRHT_REG_CMD]) 1000,
         Event.cmd_begin 0 (link_send [SI7021_WRITERHT_REG_CMD, 0x04]) 1000] ∧
    (si7021_set_heater_status SI7021_HEATER_ON
      (World.boot 0x3A [Reply.error ESP_FAIL, Reply.ok])).2.user_reg = 0x04 ∧
    (0x04 : Nat) &&& 0xFB ≠ 0x3A &&& 0xFB ∧
    (si7021_set_resolution 0x81
      (World.boot 0x3A [Reply.ok, Reply.error ESP_ERR_TIMEOUT, Reply.ok])).2.user_reg = 0x81 ∧
    (si7021_set_heater_status SI7021_HEATER_ON
      (World.boot 0x3A [Reply.ok, Reply.error ESP_ERR_TIMEOUT, Reply.ok])).2.user_reg = 0x04 := by
  decide


/-! ## Electronic identifier -/

theorem transact_config (cmd : i2c_cmd_handle_t) (w : World) :
    (transact cmd w).2.2.__si7021_config = w.__si7021_config ∧
    (transact cmd w).2.2.portTICK_PERIOD_MS = w.portTICK_PERIOD_MS := by
  unfold transact i2c_master_cmd_begin
  cases hr : w.replies with
  | nil => simp [hr]
  | cons r rest =>
    simp only [hr]
    by_cases he : r.err ≠ ESP_OK
    · simp [he]
    · simp only [he, if_false]
      unfold device_exchange
      split
      · exact ⟨rfl, rfl⟩
      · split
        · split
          · exact ⟨rfl, rfl⟩
          · split <;> exact ⟨rfl, rfl⟩
          · exact ⟨rfl, rfl⟩
        · split <;> exact ⟨rfl, rfl⟩

theorem transact_event_after (cmd cmd2 : i2c_cmd_handle_t) (w : World) :
    transact_event cmd2 (transact cmd w).2.2 = transact_event cmd2 w := by
  unfold transact_event
  rw [(transact_config cmd w).1, (transact_config cmd w).2]

theorem get_electronic_id_unfold (w : World) :
    get_electronic_id w =
      let t1 := transact (link_send [0xFA, 0x0F]) w
      if t1.1 ≠ ESP_OK then (0xFFFFFFFFFFFFFFFF, t1.2.2)
      else
        let t2 := transact (link_receive 3) t1.2.2
        if t2.1 ≠ ESP_OK then (0xFFFFFFFFFFFFFFFF, t2.2.2)
        else
          let t3 := transact (link_send [0xFC, 0xC9]) t2.2.2
          if t3.1 ≠ ESP_OK then (0xFFFFFFFFFFFFFFFF, t3.2.2)
          else
            let t4 := transact (link_receive 3) t3.2.2
            if t4.1 ≠ ESP_OK then (0xFFFFFFFFFFFFFFFF, t4.2.2)
            else
              ((((((((t2.2.1.getD 0 0 <<< 56) % 2 ^ 64
                ||| (t2.2.1.getD 1 0 <<< 48) % 2 ^ 64)
                ||| (t2.2.1.getD 2 0 <<< 40) % 2 ^ 64)
                ||| (t2.2.1.getD 3 0 <<< 32) % 2 ^ 64)
                ||| (t4.2.1.getD 0 0 <<< 24) % 2 ^ 64)
                ||| (t4.2.1.getD 1 0 <<< 16) % 2 ^ 64)
                ||| (t4.2.1.getD 2 0 <<< 8) % 2 ^ 64)
                ||| t4.2.1.getD 3 0, t4.2.2) := by
  rfl

theorem or_eq_add_of_dvd (x y i : Nat) (hy : y < 2 ^ i) (hx : 2 ^ i ∣ x) : x ||| y = x + y := by
  obtain ⟨q, rfl⟩ := hx
  exact (Nat.mul_add_lt_is_or hy q).symm

/-- The eight bytes assembled by `get_electronic_id` form the big-endian
concatenation: serial number A in the high 32 bits, B in the low 32 bits. -/
theorem id_bytes_concat (a3 a2 a1 a0 b3 b2 b1 b0 : Nat)
    (ha3 : a3 < 256) (ha2 : a2 < 256) (ha1 : a1 < 256) (ha0 : a0 < 256)
    (hb3 : b3 < 256) (hb2 : b2 < 256) (hb1 : b1 < 256) (hb0 : b0 < 256) :
    ((((((((a3 <<< 56) % 2 ^ 64 ||| (a2 <<< 48) % 2 ^ 64) ||| (a1 <<< 40) % 2 ^ 64)
      ||| (a0 <<< 32) % 2 ^ 64) ||| (b3 <<< 24) % 2 ^ 64) ||| (b2 <<< 16) % 2 ^ 64)
      ||| (b1 <<< 8) % 2 ^ 64) ||| b0)
      = (a3 * 2 ^ 24 + a2 * 2 ^ 16 + a1 * 2 ^ 8 + a0) * 2 ^ 32
        + (b3 * 2 ^ 24 + b2 * 2 ^ 16 + b1 * 2 ^ 8 + b0) := by
  have m7 : (a3 <<< 56) % 2 ^ 64 = a3 * 2 ^ 56 := by
    rw [Nat.shiftLeft_eq]; exact Nat.mod_eq_of_lt (by omega)
  have m6 : (a2 <<< 48) % 2 ^ 64 = a2 * 2 ^ 48 := by
    rw [Nat.shiftLeft_eq]; exact Nat.mod_eq_of_lt (by omega)
  have m5 : (a1 <<< 40) % 2 ^ 64 = a1 * 2 ^ 40 := by
    rw [Nat.shiftLeft_eq]; exact Nat.mod_eq_of_lt (by omega)
  have m4 : (a0 <<< 32) % 2 ^ 64 = a0 * 2 ^ 32 := by
    rw [Nat.shiftLeft_eq]; exact Nat.mod_eq_of_lt (by omega)
  have m3 : (b3 <<< 24) % 2 ^ 64 = b3 * 2 ^ 24 := by
    rw [Nat.shiftLeft_eq]; exact Nat.mod_eq_of_lt (by omega)
  have m2 : (b2 <<< 16) % 2 ^ 64 = b2 * 2 ^ 16 := by
    rw [Nat.shiftLeft_eq]; exact Nat.mod_eq_of_lt (by omega)
  have m1 : (b1 <<< 8) % 2 ^ 64 = b1 * 2 ^ 8 := by
    rw [Nat.shiftLeft_eq]; exact Nat.mod_eq_of_lt (by omega)
  rw [m7, m6, m5, m4, m3, m2, m1]
  rw [or_eq_add_of_dvd (a3 * 2 ^ 56) (a2 * 2 ^ 48) 56 (by omega) (by omega)]
  rw [or_eq_add_of_dvd (a3 * 2 ^ 56 + a2 * 2 ^ 48) (a1 * 2 ^ 40) 48 (by omega) (by omega)]
  rw [or_eq_add_of_dvd (a3 * 2 ^ 56 + a2 * 2 ^ 48 + a1 * 2 ^ 40) (a0 * 2 ^ 32) 40 (by omega)
    (by omega)]
  rw [or_eq_add_of_dvd (a3 * 2 ^ 56 + a2 * 2 ^ 48 + a1 * 2 ^ 40 + a0 * 2 ^ 32) (b3 * 2 ^ 24) 32
    (by omega) (by omega)]
  rw [or_eq_add_of_dvd (a3 * 2 ^ 56 + a2 * 2 ^ 48 + a1 * 2 ^ 40 + a0 * 2 ^ 32 + b3 * 2 ^ 24)
    (b2 * 2 ^ 16) 24 (by omega) (by omega)]
  rw [or_eq_add_of_dvd
    (a3 * 2 ^ 56 + a2 * 2 ^ 48 + a1 * 2 ^ 40 + a0 * 2 ^ 32 + b3 * 2 ^ 24 + b2 * 2 ^ 16)
    (b1 * 2 ^ 8) 16 (by omega) (by omega)]
  rw [or_eq_add_of_dvd
    (a3 * 2 ^ 56 + a2 * 2 ^ 48 + a1 * 2 ^ 40 + a0 * 2 ^ 32 + b3 * 2 ^ 24 + b2 * 2 ^ 16
      + b1 * 2 ^ 8) b0 8 (by omega) (by omega)]
  omega

/-- Claim C9: `get_electronic_id` issues, in order, the ID1 command, a 4-byte
read, the ID2 command and a 4-byte read.  If all four succeed, delivering
`a3 a2 a1 a0` and `b3 b2 b1 b0`, the result is the big-endian concatenation with
serial number A in the high and B in the low 32 bits.  If one of them fails the
result is 0xFFFFFFFFFFFFFFFF and the trace ends with the failed transaction. -/
theorem electronic_id_all_or_nothing (w w1 w2 w3 : World) (d1 d3 : List Nat)
    (a3 a2 a1 a0 : Nat) :
    (∀ (b3 b2 b1 b0 : Nat) (w4 : World),
      transact (link_send [0xFA, 0x0F]) w = (ESP_OK, d1, w1) →
      transact (link_receive 3) w1 = (ESP_OK, [a3, a2, a1, a0], w2) →
      transact (link_send [0xFC, 0xC9]) w2 = (ESP_OK, d3, w3) →
      transact (link_receive 3) w3 = (ESP_OK, [b3, b2, b1, b0], w4) →
      (get_electronic_id w).1
        = (a3 * 2 ^ 24 + a2 * 2 ^ 16 + a1 * 2 ^ 8 + a0) * 2 ^ 32
          + (b3 * 2 ^ 24 + b2 * 2 ^ 16 + b1 * 2 ^ 8 + b0) ∧
      (get_electronic_id w).2.trace
        = w.trace ++ [transact_event (link_send [0xFA, 0x0F]) w,
            transact_event (link_receive 3) w, transact_event (link_send [0xFC, 0xC9]) w,
            transact_event (link_receive 3) w]) ∧
    ((transact (link_send [0xFA, 0x0F]) w).1 ≠ ESP_OK →
      (get_electronic_id w).1 = 0xFFFFFFFFFFFFFFFF ∧
      (get_electronic_id w).2.trace = w.trace ++ [transact_event (link_send [0xFA, 0x0F]) w]) ∧
    (transact (link_send [0xFA, 0x0F]) w = (ESP_OK, d1, w1) →
      (transact (link_receive 3) w1).1 ≠ ESP_OK →
      (get_electronic_id w).1 = 0xFFFFFFFFFFFFFFFF ∧
      (get_electronic_id w).2.trace
        = w.trace ++ [transact_event (link_send [0xFA, 0x0F]) w,
            transact_event (link_receive 3) w]) ∧
    (transact (link_send [0xFA, 0x0F]) w = (ESP_OK, d1, w1) →
      transact (link_receive 3) w1 = (ESP_OK, [a3, a2, a1, a0], w2) →
      (transact (link_send [0xFC, 0xC9]) w2).1 ≠ ESP_OK →
      (get_electronic_id w).1 = 0xFFFFFFFFFFFFFFFF ∧
      (get_electronic_id w).2.trace
        = w.trace ++ [transact_event (link_send [0xFA, 0x0F]) w,
            transact_event (link_receive 3) w, transact_event (link_send [0xFC, 0xC9]) w]) ∧
    (transact (link_send [0xFA, 0x0F]) w = (ESP_OK, d1, w1) →
      transact (link_receive 3) w1 = (ESP_OK, [a3, a2, a1, a0], w2) →
      transact (link_send [0xFC, 0xC9]) w2 = (ESP_OK, d3, w3) →
      (transact (link_receive 3) w3).1 ≠ ESP_OK →
      (get_electronic_id w).1 = 0xFFFFFFFFFFFFFFFF ∧
      (get_electronic_id w).2.trace
        = w.trace ++ [transact_event (link_send [0xFA, 0x0F]) w,
            transact_event (link_receive 3) w, transact_event (link_send [0xFC, 0xC9]) w,
            transact_event (link_receive 3) w]) := by
  have tr1 := transact_trace (link_send [0xFA, 0x0F]) w
  have tr2 := transact_trace (link_receive 3) w1
  have tr3 := transact_trace (link_send [0xFC, 0xC9]) w2
  have tr4 := transact_trace (link_receive 3) w3
  have ev2 := transact_event_after (link_send [0xFA, 0x0F]) (link_receive 3) w
  have ev3 := transact_event_after (link_receive 3) (link_send [0xFC, 0xC9]) w1
  have ev3b := transact_event_after (link_send [0xFA, 0x0F]) (link_send [0xFC, 0xC9]) w
  have ev4 := transact_event_after (link_send [0xFC, 0xC9]) (link_receive 3) w2
  have ev4b := transact_event_after (link_receive 3) (link_receive 3) w1
  refine ⟨?_, ?_, ?_, ?_, ?_⟩
  · intro b3 b2 b1 b0 w4 h1 h2 h3 h4
    have hA := transact_bytes_lt (link_receive 3) w1
    have hB := transact_bytes_lt (link_receive 3) w3
    rw [h2] at hA
    rw [h4] at hB
    rw [h1] at tr1 ev2 ev3b
    rw [h2] at tr2 ev3 ev4b
    rw [h3] at tr3 ev4
    rw [h4] at tr4
    simp only at tr1 tr2 tr3 tr4 ev2 ev3 ev3b ev4 ev4b
    rw [get_electronic_id_unfold]
    simp only [h1, h2, h3, h4, ne_eq, not_true_eq_false, if_false, List.getD_cons_zero,
      List.getD_cons_succ]
    refine ⟨?_, ?_⟩
    · exact id_bytes_concat a3 a2 a1 a0 b3 b2 b1 b0 (hA a3 (by simp)) (hA a2 (by simp))
        (hA a1 (by simp)) (hA a0 (by simp)) (hB b3 (by simp)) (hB b2 (by simp))
        (hB b1 (by simp)) (hB b0 (by simp))
    · rw [tr4, tr3, tr2, tr1, ev4, ev3, ev3b, ev4b, ev2]
      simp
  · intro h1
    rw [get_electronic_id_unfold]
    simp only [h1, ne_eq, not_false_eq_true, if_true]
    exact ⟨trivial, tr1⟩
  · intro h1 h2
    rw [h1] at tr1 ev2
    simp only at tr1 ev2
    rw [get_electronic_id_unfold]
    simp only [h1, h2, ne_eq, not_true_eq_false, not_false_eq_true, if_true, if_false]
    refine ⟨trivial, ?_⟩
    rw [tr2, tr1, ev2]; simp
  · intro h1 h2 h3
    rw [h1] at tr1 ev2 ev3b
    rw [h2] at tr2 ev3
    simp only at tr1 tr2 ev2 ev3 ev3b
    rw [get_electronic_id_unfold]
    simp only [h1, h2, h3, ne_eq, not_true_eq_false, not_false_eq_true, if_true, if_false]
    refine ⟨trivial, ?_⟩
    rw [tr3, tr2, tr1, ev3, ev3b, ev2]; simp
  · intro h1 h2 h3 h4
    rw [h1] at tr1 ev2 ev3b
    rw [h2] at tr2 ev3 ev4b
    rw [h3] at tr3 ev4
    simp only at tr1 tr2 tr3 ev2 ev3 ev3b ev4 ev4b
    rw [get_electronic_id_unfold]
    simp only [h1, h2, h3, h4, ne_eq, not_true_eq_false, not_false_eq_true, if_true, if_false]
    refine ⟨trivial, ?_⟩
    rw [tr4, tr3, tr2, tr1, ev4, ev3, ev3b, ev4b, ev2]; simp

/-- Witness for C9: with all four transactions successful the identifier is the
concatenation of the eight bytes; with the second 4-byte read timing out after a
successful first read it is all ones. -/
theorem electronic_id_all_or_nothing_witness :
    (get_electronic_id (World.boot 0x3A
      [Reply.ok, Reply.bytes [0x01, 0x02, 0x03, 0x04], Reply.ok,
        Reply.bytes [0x05, 0x06, 0x07, 0x08]])).1 = 0x0102030405060708 ∧
    (get_electronic_id (World.boot 0x3A
      [Reply.ok, Reply.bytes [0x01, 0x02, 0x03, 0x04], Reply.ok,
        Reply.error ESP_ERR_TIMEOUT])).1 = 0xFFFFFFFFFFFFFFFF :=
  ⟨((electronic_id_all_or_nothing
      (World.boot 0x3A [Reply.ok, Reply.bytes [0x01, 0x02, 0x03, 0x04], Reply.ok,
        Reply.bytes [0x05, 0x06, 0x07, 0x08]])
      _ _ _ [] [] 0x01 0x02 0x03 0x04).1 0x05 0x06 0x07 0x08 _ rfl rfl rfl rfl).1,
   ((electronic_id_all_or_nothing
      (World.boot 0x3A [Reply.ok, Reply.bytes [0x01, 0x02, 0x03, 0x04], Reply.ok,
        Reply.error ESP_ERR_TIMEOUT])
      _ _ _ [] [] 0x01 0x02 0x03 0x04).2.2.2.2 rfl rfl rfl (by decide)).1⟩

/-! ## Initialisation -/

theorem transact_err (cmd : i2c_cmd_handle_t) (w : World) :
    (transact cmd w).1 = next_outcome w := by
  unfold transact i2c_master_cmd_begin next_outcome
  cases hr : w.replies with
  | nil => simp [hr]
  | cons r rest =>
    simp only [hr]
    by_cases he : r.err ≠ ESP_OK
    · simp [he]
    · simp only [he, if_false]
      exact (not_not.mp he).symm

theorem param_config_unfold (config : si7021_config_t) (w : World) :
    __si7021_param_config config w =
      (if w.param_config_result config.si7021_port config.sensors_config ≠ ESP_OK then
          SI7021_ERR_CONFIG else SI7021_ERR_OK,
        { w with __si7021_config := config,
                 trace := w.trace
                  ++ [Event.param_config config.si7021_port config.sensors_config] }) := by
  unfold __si7021_param_config i2c_param_config
  simp only
  split <;> rfl

theorem driver_config_unfold (config : si7021_config_t) (w : World) :
    __si7021_driver_config config w =
      (if w.driver_install_result w.__si7021_config.si7021_port ≠ ESP_OK then
          SI7021_ERR_INSTALL else SI7021_ERR_OK,
        { w with trace := w.trace
                  ++ [Event.driver_install w.__si7021_config.si7021_port I2C_MODE_MASTER] }) := by
  unfold __si7021_driver_config i2c_driver_install
  simp only
  split <;> rfl

theorem check_availability_unfold (w : World) :
    si7021_check_availability w =
      (if (transact link_probe w).1 ≠ ESP_OK then SI7021_ERR_NOTFOUND else SI7021_ERR_OK,
        (transact link_probe w).2.2) := by
  show (if (transact link_probe w).1 ≠ ESP_OK then (SI7021_ERR_NOTFOUND, (transact link_probe w).2.2)
    else (SI7021_ERR_OK, (transact link_probe w).2.2)) = _
  split <;> rfl

theorem si7021_init_unfold (config : si7021_config_t) (w : World) :
    si7021_init config w =
      if (__si7021_param_config config w).1 ≠ SI7021_ERR_OK then
        ((__si7021_param_config config w).1, (__si7021_param_config config w).2)
      else if (__si7021_driver_config config (__si7021_param_config config w).2).1
          ≠ SI7021_ERR_OK then
        ((__si7021_driver_config config (__si7021_param_config config w).2).1,
          (__si7021_driver_config config (__si7021_param_config config w).2).2)
      else if (si7021_check_availability
          (__si7021_driver_config config (__si7021_param_config config w).2).2).1
            ≠ SI7021_ERR_OK then
        ((si7021_check_availability
            (__si7021_driver_config config (__si7021_param_config config w).2).2).1,
          (si7021_check_availability
            (__si7021_driver_config config (__si7021_param_config config w).2).2).2)
      else
        (SI7021_ERR_OK,
          (si7021_check_availability
            (__si7021_driver_config config (__si7021_param_config config w).2).2).2) := by
  rfl

/-- Claim C10: `si7021_init` returns `SI7021_ERR_CONFIG` when the bus parameter
configuration fails (nothing else is then called), `SI7021_ERR_INSTALL` when the
configuration succeeds and the driver installation fails (the probe is not
attempted), `SI7021_ERR_NOTFOUND` when both succeed and the address-only probe
transaction fails, and `SI7021_ERR_OK` exactly when all three steps succeed. -/
theorem init_stops_at_first_failure (config : si7021_config_t) (w : World) :
    (w.param_config_result config.si7021_port config.sensors_config ≠ ESP_OK →
      (si7021_init config w).1 = SI7021_ERR_CONFIG ∧
      (si7021_init config w).2.trace
        = w.trace ++ [Event.param_config config.si7021_port config.sensors_config]) ∧
    (w.param_config_result config.si7021_port config.sensors_config = ESP_OK →
      w.driver_install_result config.si7021_port ≠ ESP_OK →
      (si7021_init config w).1 = SI7021_ERR_INSTALL ∧
      (si7021_init config w).2.trace
        = w.trace ++ [Event.param_config config.si7021_port config.sensors_config,
            Event.driver_install config.si7021_port I2C_MODE_MASTER]) ∧
    (w.param_config_result config.si7021_port config.sensors_config = ESP_OK →
      w.driver_install_result config.si7021_port = ESP_OK →
      next_outcome w ≠ ESP_OK →
      (si7021_init config w).1 = SI7021_ERR_NOTFOUND ∧
      (si7021_init config w).2.trace
        = w.trace ++ [Event.param_config config.si7021_port config.sensors_config,
            Event.driver_install config.si7021_port I2C_MODE_MASTER,
            Event.cmd_begin config.si7021_port link_probe (1000 / w.portTICK_PERIOD_MS)]) ∧
    ((si7021_init config w).1 = SI7021_ERR_OK ↔
      (w.param_config_result config.si7021_port config.sensors_config = ESP_OK ∧
        w.driver_install_result config.si7021_port = ESP_OK ∧
        next_outcome w = ESP_OK)) := by
  have hprobe : ∀ w2 : World, w2.replies = w.replies →
      (transact link_probe w2).1 = next_outcome w := by
    intro w2 h2
    rw [transact_err]
    unfold next_outcome
    rw [h2]
  have hp := hprobe
    { w with __si7021_config := config,
             trace := w.trace ++ [Event.param_config config.si7021_port config.sensors_config]
              ++ [Event.driver_install config.si7021_port I2C_MODE_MASTER] } rfl
  rw [si7021_init_unfold]
  simp only [param_config_unfold, driver_config_unfold, check_availability_unfold, hp]
  by_cases h1 : w.param_config_result config.si7021_port config.sensors_config = ESP_OK
  · by_cases h2 : w.driver_install_result config.si7021_port = ESP_OK
    · by_cases h3 : next_outcome w = ESP_OK
      · simp [h1, h2, h3]
      · simp [h1, h2, h3, transact_trace, transact_event, SI7021_ERR_NOTFOUND, SI7021_ERR_OK]
    · simp [h1, h2, SI7021_ERR_INSTALL, SI7021_ERR_OK]
  · simp [h1, SI7021_ERR_CONFIG, SI7021_ERR_OK]

/-- Witness for C10: one run for each of the four outcomes of `si7021_init`. -/
theorem init_stops_at_first_failure_witness :
    ((si7021_init __si7021_config_default (World.boot_with ESP_FAIL ESP_OK [Reply.ok])).1
        = SI7021_ERR_CONFIG ∧
      (si7021_init __si7021_config_default (World.boot_with ESP_FAIL ESP_OK [Reply.ok])).2.trace
        = [Event.param_config 0 __si7021_config_default.sensors_config]) ∧
    ((si7021_init __si7021_config_default (World.boot_with ESP_OK ESP_FAIL [Reply.ok])).1
        = SI7021_ERR_INSTALL ∧
      (si7021_init __si7021_config_default (World.boot_with ESP_OK ESP_FAIL [Reply.ok])).2.trace
        = [Event.param_config 0 __si7021_config_default.sensors_config,
            Event.driver_install 0 I2C_MODE_MASTER]) ∧
    ((si7021_init __si7021_config_default
        (World.boot_with ESP_OK ESP_OK [Reply.error ESP_FAIL])).1 = SI7021_ERR_NOTFOUND ∧
      (si7021_init __si7021_config_default
        (World.boot_with ESP_OK ESP_OK [Reply.error ESP_FAIL])).2.trace
        = [Event.param_config 0 __si7021_config_default.sensors_config,
            Event.driver_install 0 I2C_MODE_MASTER, Event.cmd_begin 0 link_probe 1000]) ∧
    (si7021_init __si7021_config_default (World.boot_with ESP_OK ESP_OK [Reply.ok])).1
      = SI7021_ERR_OK :=
  ⟨(init_stops_at_first_failure __si7021_config_default
      (World.boot_with ESP_FAIL ESP_OK [Reply.ok])).1 (by decide),
   (init_stops_at_first_failure __si7021_config_default
      (World.boot_with ESP_OK ESP_FAIL [Reply.ok])).2.1 (by decide) (by decide),
   (init_stops_at_first_failure __si7021_config_default
      (World.boot_with ESP_OK ESP_OK [Reply.error ESP_FAIL])).2.2.1
      (by decide) (by decide) (by decide),
   (init_stops_at_first_failure __si7021_config_default
      (World.boot_with ESP_OK ESP_OK [Reply.ok])).2.2.2.2 ⟨by decide, by decide, by decide⟩⟩


/-! ## Mapping of transport outcomes to driver codes -/

theorem soft_reset_unfold (w : World) :
    si7021_soft_reset w =
      if (transact (link_send [SI7021_SOFT_RESET_CMD]) w).1 = ESP_ERR_INVALID_ARG then
        (SI7021_ERR_INVALID_ARG, (transact (link_send [SI7021_SOFT_RESET_CMD]) w).2.2)
      else if (transact (link_send [SI7021_SOFT_RESET_CMD]) w).1 = ESP_FAIL then
        (SI7021_ERR_FAIL, (transact (link_send [SI7021_SOFT_RESET_CMD]) w).2.2)
      else if (transact (link_send [SI7021_SOFT_RESET_CMD]) w).1 = ESP_ERR_INVALID_STATE then
        (SI7021_ERR_INVALID_STATE, (transact (link_send [SI7021_SOFT_RESET_CMD]) w).2.2)
      else if (transact (link_send [SI7021_SOFT_RESET_CMD]) w).1 = ESP_ERR_TIMEOUT then
        (SI7021_ERR_TIMEOUT, (transact (link_send [SI7021_SOFT_RESET_CMD]) w).2.2)
      else (SI7021_ERR_OK, (transact (link_send [SI7021_SOFT_RESET_CMD]) w).2.2) := by
  rfl

theorem set_heater_register_unfold (value : Nat) (w : World) :
    si7021_set_heater_register value w =
      if (transact (link_send [SI7021_WRITEHEATER_REG_CMD, value &&& 0xF]) w).1
          = ESP_ERR_INVALID_ARG then
        (SI7021_ERR_INVALID_ARG,
          (transact (link_send [SI7021_WRITEHEATER_REG_CMD, value &&& 0xF]) w).2.2)
      else if (transact (link_send [SI7021_WRITEHEATER_REG_CMD, value &&& 0xF]) w).1
          = ESP_FAIL then
        (SI7021_ERR_FAIL,
          (transact (link_send [SI7021_WRITEHEATER_REG_CMD, value &&& 0xF]) w).2.2)
      else if (transact (link_send [SI7021_WRITEHEATER_REG_CMD, value &&& 0xF]) w).1
          = ESP_ERR_INVALID_STATE then
        (SI7021_ERR_INVALID_STATE,
          (transact (link_send [SI7021_WRITEHEATER_REG_CMD, value &&& 0xF]) w).2.2)
      else if (transact (link_send [SI7021_WRITEHEATER_REG_CMD, value &&& 0xF]) w).1
          = ESP_ERR_TIMEOUT then
        (SI7021_ERR_TIMEOUT,
          (transact (link_send [SI7021_WRITEHEATER_REG_CMD, value &&& 0xF]) w).2.2)
      else
        (SI7021_ERR_OK,
          (transact (link_send [SI7021_WRITEHEATER_REG_CMD, value &&& 0xF]) w).2.2) := by
  rfl

/-- The code returned by `si7021_soft_reset`, as a function of the outcome of its
one transaction. -/
theorem soft_reset_code (w : World) :
    (si7021_soft_reset w).1 =
      if next_outcome w = ESP_ERR_INVALID_ARG then SI7021_ERR_INVALID_ARG
      else if next_outcome w = ESP_FAIL then SI7021_ERR_FAIL
      else if next_outcome w = ESP_ERR_INVALID_STATE then SI7021_ERR_INVALID_STATE
      else if next_outcome w = ESP_ERR_TIMEOUT then SI7021_ERR_TIMEOUT
      else SI7021_ERR_OK := by
  rw [soft_reset_unfold]
  simp only [transact_err]
  split_ifs <;> rfl

/-- The code returned by `__si7021_write_user_register`, as a function of the
outcome of its one transaction. -/
theorem write_user_register_code (value : Nat) (w : World) :
    (__si7021_write_user_register value w).1 =
      if next_outcome w = ESP_ERR_INVALID_ARG then SI7021_ERR_INVALID_ARG
      else if next_outcome w = ESP_FAIL then SI7021_ERR_FAIL
      else if next_outcome w = ESP_ERR_INVALID_STATE then SI7021_ERR_INVALID_STATE
      else if next_outcome w = ESP_ERR_TIMEOUT then SI7021_ERR_TIMEOUT
      else SI7021_ERR_OK := by
  rw [write_user_register_unfold]
  simp only [transact_err]
  split_ifs <;> rfl

/-- The code returned by `si7021_set_heater_register`, as a function of the
outcome of its one transaction. -/
theorem set_heater_register_code (value : Nat) (w : World) :
    (si7021_set_heater_register value w).1 =
      if next_outcome w = ESP_ERR_INVALID_ARG then SI7021_ERR_INVALID_ARG
      else if next_outcome w = ESP_FAIL then SI7021_ERR_FAIL
      else if next_outcome w = ESP_ERR_INVALID_STATE then SI7021_ERR_INVALID_STATE
      else if next_outcome w = ESP_ERR_TIMEOUT then SI7021_ERR_TIMEOUT
      else SI7021_ERR_OK := by
  rw [set_heater_register_unfold]
  simp only [transact_err]
  split_ifs <;> rfl

/-- The driver's if-chain agrees with the specification's table wherever the
table is defined. -/
theorem code_chain_eq_spec (e : esp_err_t) (code : Nat) (h : spec_error_code e = some code) :
    (if e = ESP_ERR_INVALID_ARG then SI7021_ERR_INVALID_ARG
      else if e = ESP_FAIL then SI7021_ERR_FAIL
      else if e = ESP_ERR_INVALID_STATE then SI7021_ERR_INVALID_STATE
      else if e = ESP_ERR_TIMEOUT then SI7021_ERR_TIMEOUT
      else SI7021_ERR_OK) = code := by
  unfold spec_error_code at h
  split_ifs at h with h0 h1 h2 h3 h4
  · subst h0; simp only [Option.some.injEq] at h; subst h; decide
  · subst h1; simp only [Option.some.injEq] at h; subst h; decide
  · subst h2; simp only [Option.some.injEq] at h; subst h; decide
  · subst h3; simp only [Option.some.injEq] at h; subst h; decide
  · subst h4; simp only [Option.some.injEq] at h; subst h; decide

theorem spec_error_code_injective (e1 e2 : esp_err_t) (code : Nat)
    (h1 : spec_error_code e1 = some code) (h2 : spec_error_code e2 = some code) : e1 = e2 := by
  unfold spec_error_code at h1 h2
  split_ifs at h1 <;> split_ifs at h2 <;> injection h1 with h1 <;> injection h2 with h2 <;>
    subst h1 <;> first | (subst_vars; rfl) | (exact absurd h2 (by decide))

/-- Claim C11: in `si7021_soft_reset`, `__si7021_write_user_register` and
`si7021_set_heater_register` the outcome of the bus transaction is mapped to the
returned code as the specification's table says: success to `SI7021_ERR_OK`
(0x00), argument error to `SI7021_ERR_INVALID_ARG` (0x04), generic failure to
`SI7021_ERR_FAIL` (0x05), invalid peripheral state to `SI7021_ERR_INVALID_STATE`
(0x06), timeout to `SI7021_ERR_TIMEOUT` (0x07).  On these five outcomes the
returned code determines the outcome (the mapping is injective), and
`si7021_set_resolution` and `si7021_set_heater_status` return the result of
their final `__si7021_write_user_register` call unchanged, hence the code mapped
from the outcome of the write transaction. -/
theorem outcome_mapped_to_code (value : Nat) (w : World) :
    (∀ (e : esp_err_t) (code : Nat), spec_error_code e = some code → next_outcome w = e →
      (si7021_soft_reset w).1 = code ∧
      (__si7021_write_user_register value w).1 = code ∧
      (si7021_set_heater_register value w).1 = code) ∧
    (spec_error_code ESP_OK = some 0x00 ∧
      spec_error_code ESP_ERR_INVALID_ARG = some 0x04 ∧
      spec_error_code ESP_FAIL = some 0x05 ∧
      spec_error_code ESP_ERR_INVALID_STATE = some 0x06 ∧
      spec_error_code ESP_ERR_TIMEOUT = some 0x07) ∧
    (∀ (w2 : World) (value2 c1 c2 : Nat),
      spec_error_code (next_outcome w) = some c1 →
      spec_error_code (next_outcome w2) = some c2 →
      ((si7021_soft_reset w).1 = (si7021_soft_reset w2).1 →
        next_outcome w = next_outcome w2) ∧
      ((__si7021_write_user_register value w).1 = (__si7021_write_user_register value2 w2).1 →
        next_outcome w = next_outcome w2) ∧
      ((si7021_set_heater_register value w).1 = (si7021_set_heater_register value2 w2).1 →
        next_outcome w = next_outcome w2)) ∧
    (∀ (e : esp_err_t) (code : Nat), spec_error_code e = some code →
      next_outcome (__si7021_read_user_register w).2 = e →
      (si7021_set_resolution value w).1 = code ∧
      (si7021_set_heater_status value w).1 = code) ∧
    (∃ v, si7021_set_resolution value w
      = __si7021_write_user_register v (__si7021_read_user_register w).2) ∧
    (∃ v, si7021_set_heater_status value w
      = __si7021_write_user_register v (__si7021_read_user_register w).2) := by
  refine ⟨?_, by decide, ?_, ?_, ⟨_, set_resolution_unfold value w⟩,
    ⟨_, set_heater_status_unfold value w⟩⟩
  · intro e code hspec he
    have hchain := code_chain_eq_spec e code hspec
    rw [← he] at hchain
    exact ⟨by rw [soft_reset_code]; exact hchain,
      by rw [write_user_register_code]; exact hchain,
      by rw [set_heater_register_code]; exact hchain⟩
  · intro w2 value2 c1 c2 h1 h2
    have k1 := code_chain_eq_spec _ c1 h1
    have k2 := code_chain_eq_spec _ c2 h2
    refine ⟨fun h => ?_, fun h => ?_, fun h => ?_⟩
    · rw [soft_reset_code, soft_reset_code, k1, k2] at h
      subst h
      exact spec_error_code_injective _ _ c1 h1 h2
    · rw [write_user_register_code, write_user_register_code, k1, k2] at h
      subst h
      exact spec_error_code_injective _ _ c1 h1 h2
    · rw [set_heater_register_code, set_heater_register_code, k1, k2] at h
      subst h
      exact spec_error_code_injective _ _ c1 h1 h2
  · intro e code hspec he
    have hchain := code_chain_eq_spec e code hspec
    rw [← he] at hchain
    exact ⟨by rw [set_resolution_unfold, write_user_register_code]; exact hchain,
      by rw [set_heater_status_unfold, write_user_register_code]; exact hchain⟩

/-- Witness for C11: a timeout is reported as `SI7021_ERR_TIMEOUT` by the three
functions, two runs of `si7021_soft_reset` with the same code had the same
outcome, and `si7021_set_resolution` passes on `SI7021_ERR_INVALID_STATE` from its write. -/
theorem outcome_mapped_to_code_witness :
    ((si7021_soft_reset (World.boot 0x3A [Reply.error ESP_ERR_TIMEOUT])).1
        = SI7021_ERR_TIMEOUT ∧
      (__si7021_write_user_register 0x3B (World.boot 0x3A [Reply.error ESP_ERR_TIMEOUT])).1
        = SI7021_ERR_TIMEOUT ∧
      (si7021_set_heater_register 0x3B (World.boot 0x3A [Reply.error ESP_ERR_TIMEOUT])).1
        = SI7021_ERR_TIMEOUT) ∧
    next_outcome (World.boot 0x3A [Reply.error ESP_ERR_TIMEOUT])
      = next_outcome (World.boot 0x3A [Reply.error ESP_ERR_TIMEOUT, Reply.ok]) ∧
    ((si7021_set_resolution 0x81
        (World.boot 0x3A [Reply.ok, Reply.ok, Reply.error ESP_ERR_INVALID_STATE])).1
        = SI7021_ERR_INVALID_STATE ∧
      (si7021_set_heater_status 0x81
        (World.boot 0x3A [Reply.ok, Reply.ok, Reply.error ESP_ERR_INVALID_STATE])).1
        = SI7021_ERR_INVALID_STATE) :=
  ⟨(outcome_mapped_to_code 0x3B (World.boot 0x3A [Reply.error ESP_ERR_TIMEOUT])).1
      ESP_ERR_TIMEOUT SI7021_ERR_TIMEOUT (by decide) (by decide),
   ((outcome_mapped_to_code 0x3B (World.boot 0x3A [Reply.error ESP_ERR_TIMEOUT])).2.2.1
      (World.boot 0x3A [Reply.error ESP_ERR_TIMEOUT, Reply.ok]) 0x3B
      SI7021_ERR_TIMEOUT SI7021_ERR_TIMEOUT (by decide) (by decide)).1 (by decide),
   (outcome_mapped_to_code 0x81
      (World.boot 0x3A [Reply.ok, Reply.ok, Reply.error ESP_ERR_INVALID_STATE])).2.2.2.1
      ESP_ERR_INVALID_STATE SI7021_ERR_INVALID_STATE (by decide) (by decide)⟩

/-! ## Measurement reads after a failed initialisation -/

/-- Every call of `__si7021_read` starts by running its command transaction. -/
theorem si7021_read_attempts_command (command : Nat) (w : World) :
    ∃ rest, (__si7021_read command w).2.trace
      = w.trace ++ transact_event (link_send [command]) w :: rest := by
  have t1 := transact_trace (link_send [command]) w
  have t2 := transact_trace (link_receive 2) (settle (transact (link_send [command]) w).2.2)
  have hs : (settle (transact (link_send [command]) w).2.2).trace
      = (transact (link_send [command]) w).2.2.trace
        ++ [Event.delay (50 / (transact (link_send [command]) w).2.2.portTICK_PERIOD_MS)] := rfl
  rw [si7021_read_unfold]
  split
  · exact ⟨[], t1⟩
  · split
    · refine ⟨[Event.delay (50 / (transact (link_send [command]) w).2.2.portTICK_PERIOD_MS),
        transact_event (link_receive 2) (settle (transact (link_send [command]) w).2.2)], ?_⟩
      show (transact (link_receive 2) (settle (transact (link_send [command]) w).2.2)).2.2.trace
        = _
      rw [t2, hs, t1]
      simp
    · split
      · refine ⟨[Event.delay (50 / (transact (link_send [command]) w).2.2.portTICK_PERIOD_MS),
          transact_event (link_receive 2) (settle (transact (link_send [command]) w).2.2),
          Event.print "CRC invalid\r\n"], ?_⟩
        show (transact (link_receive 2)
          (settle (transact (link_send [command]) w).2.2)).2.2.trace
            ++ [Event.print "CRC invalid\r\n"] = _
        rw [t2, hs, t1]
        simp
      · refine ⟨[Event.delay (50 / (transact (link_send [command]) w).2.2.portTICK_PERIOD_MS),
          transact_event (link_receive 2) (settle (transact (link_send [command]) w).2.2)], ?_⟩
        show (transact (link_receive 2)
          (settle (transact (link_send [command]) w).2.2)).2.2.trace = _
        rw [t2, hs, t1]
        simp

/-- The world `si7021_init` leaves behind when configuration and installation
succeed and the probe fails. -/
theorem init_notfound (config : si7021_config_t) (w : World)
    (hc : w.param_config_result config.si7021_port config.sensors_config = ESP_OK)
    (hd : w.driver_install_result config.si7021_port = ESP_OK)
    (hp : next_outcome w ≠ ESP_OK) :
    si7021_init config w =
      (SI7021_ERR_NOTFOUND, (transact link_probe
        { w with __si7021_config := config,
                 trace := w.trace
                  ++ [Event.param_config config.si7021_port config.sensors_config]
                  ++ [Event.driver_install config.si7021_port I2C_MODE_MASTER] }).2.2) := by
  have hprobe : (transact link_probe
      { w with __si7021_config := config,
               trace := w.trace ++ [Event.param_config config.si7021_port config.sensors_config]
                ++ [Event.driver_install config.si7021_port I2C_MODE_MASTER] }).1
      = next_outcome w := by
    rw [transact_err]; rfl
  rw [si7021_init_unfold]
  simp only [param_config_unfold, driver_config_unfold, check_availability_unfold, hprobe]
  simp [hc, hd, hp, SI7021_ERR_NOTFOUND, SI7021_ERR_OK]

theorem read_temperature_world (w : World) :
    (si7021_read_temperature w).2 = (__si7021_read SI7021_MEASTEMP_NOHOLD_CMD w).2 := by
  rw [si7021_read_temperature_unfold]
  split <;> rfl

theorem read_humidity_world (w : World) :
    (si7021_read_humidity w).2 = (__si7021_read SI7021_MEASRH_NOHOLD_CMD w).2 := by
  rw [si7021_read_humidity_unfold]
  split <;> rfl

/-- Claim C12, as the code has it: after a call to `si7021_init` whose
availability probe is not acknowledged, `si7021_init` returns
`SI7021_ERR_NOTFOUND`, and the driver keeps no readiness state: a subsequent
`si7021_read_temperature` or `si7021_read_humidity` is not rejected but runs its
command transaction on the configured port, returns the sentinel -999 when that
transaction fails, and returns the converted reading when both transactions
succeed with a non-zero raw count. -/
theorem read_after_unacknowledged_probe (config : si7021_config_t) (w : World)
    (hc : w.param_config_result config.si7021_port config.sensors_config = ESP_OK)
    (hd : w.driver_install_result config.si7021_port = ESP_OK)
    (hp : next_outcome w ≠ ESP_OK) :
    (si7021_init config w).1 = SI7021_ERR_NOTFOUND ∧
    (∃ rest, (si7021_read_temperature (si7021_init config w).2).2.trace
      = (si7021_init config w).2.trace
        ++ Event.cmd_begin config.si7021_port (link_send [SI7021_MEASTEMP_NOHOLD_CMD])
            (1000 / w.portTICK_PERIOD_MS) :: rest) ∧
    (∃ rest, (si7021_read_humidity (si7021_init config w).2).2.trace
      = (si7021_init config w).2.trace
        ++ Event.cmd_begin config.si7021_port (link_send [SI7021_MEASRH_NOHOLD_CMD])
            (1000 / w.portTICK_PERIOD_MS) :: rest) ∧
    (next_outcome (si7021_init config w).2 ≠ ESP_OK →
      (si7021_read_temperature (si7021_init config w).2).1 = -999 ∧
      (si7021_read_humidity (si7021_init config w).2).1 = -999) ∧
    (∀ (msb lsb crc : Nat) (d : List Nat) (w1 w2 : World),
      transact (link_receive 2) (settle w1) = (ESP_OK, [msb, lsb, crc], w2) →
      ((msb <<< 8) ||| lsb) &&& 0xFFFC ≠ 0 →
      (transact (link_send [SI7021_MEASTEMP_NOHOLD_CMD]) (si7021_init config w).2
          = (ESP_OK, d, w1) →
        (si7021_read_temperature (si7021_init config w).2).1
          = ((((msb <<< 8) ||| lsb) &&& 0xFFFC : ℕ) : ℚ) * 175.72 / 65536 - 46.85) ∧
      (transact (link_send [SI7021_MEASRH_NOHOLD_CMD]) (si7021_init config w).2
          = (ESP_OK, d, w1) →
        (si7021_read_humidity (si7021_init config w).2).1
          = 125 * ((((msb <<< 8) ||| lsb) &&& 0xFFFC : ℕ) : ℚ) / 65536 - 6.0)) := by
  have hinit := init_notfound config w hc hd hp
  have hcfg := transact_config link_probe
    { w with __si7021_config := config,
             trace := w.trace ++ [Event.param_config config.si7021_port config.sensors_config]
              ++ [Event.driver_install config.si7021_port I2C_MODE_MASTER] }
  have hev : ∀ cmd, transact_event cmd (si7021_init config w).2
      = Event.cmd_begin config.si7021_port cmd (1000 / w.portTICK_PERIOD_MS) := by
    intro cmd
    rw [hinit]
    unfold transact_event
    rw [hcfg.1, hcfg.2]
  refine ⟨by rw [hinit], ?_, ?_, ?_, ?_⟩
  · obtain ⟨rest, hrest⟩ :=
      si7021_read_attempts_command SI7021_MEASTEMP_NOHOLD_CMD (si7021_init config w).2
    exact ⟨rest, by rw [read_temperature_world, hrest, hev]⟩
  · obtain ⟨rest, hrest⟩ :=
      si7021_read_attempts_command SI7021_MEASRH_NOHOLD_CMD (si7021_init config w).2
    exact ⟨rest, by rw [read_humidity_world, hrest, hev]⟩
  · intro hnext
    have hT : (transact (link_send [SI7021_MEASTEMP_NOHOLD_CMD]) (si7021_init config w).2).1
        ≠ ESP_OK := by rw [transact_err]; exact hnext
    have hH : (transact (link_send [SI7021_MEASRH_NOHOLD_CMD]) (si7021_init config w).2).1
        ≠ ESP_OK := by rw [transact_err]; exact hnext
    refine ⟨?_, ?_⟩
    · rw [si7021_read_temperature_unfold, si7021_read_command_failure _ _ hT]
      rfl
    · rw [si7021_read_humidity_unfold, si7021_read_command_failure _ _ hH]
      rfl
  · intro msb lsb crc d w1 w2 hread hr
    refine ⟨fun hcmd => ?_, fun hcmd => ?_⟩
    · rw [si7021_read_temperature_unfold,
        si7021_read_success _ msb lsb crc d _ w1 w2 hcmd hread, if_neg hr]
      norm_num
    · rw [si7021_read_humidity_unfold,
        si7021_read_success _ msb lsb crc d _ w1 w2 hcmd hread, if_neg hr]
      norm_num

/-- Witness for C12: after a probe that is not acknowledged, a read whose command
transaction times out returns -999, and a read whose transactions succeed
returns the converted reading. -/
theorem read_after_unacknowledged_probe_witness :
    (si7021_init __si7021_config_default
      (World.boot_with ESP_OK ESP_OK [Reply.error ESP_FAIL, Reply.error ESP_ERR_TIMEOUT])).1
        = SI7021_ERR_NOTFOUND ∧
    ((si7021_read_temperature (si7021_init __si7021_config_default
        (World.boot_with ESP_OK ESP_OK
          [Reply.error ESP_FAIL, Reply.error ESP_ERR_TIMEOUT])).2).1 = -999 ∧
      (si7021_read_humidity (si7021_init __si7021_config_default
        (World.boot_with ESP_OK ESP_OK
          [Reply.error ESP_FAIL, Reply.error ESP_ERR_TIMEOUT])).2).1 = -999) ∧
    (si7021_read_temperature (si7021_init __si7021_config_default
      (World.boot_with ESP_OK ESP_OK
        [Reply.error ESP_FAIL, Reply.ok, Reply.bytes [0x68, 0x3A, 0x7C]])).2).1
      = ((0x6838 : ℕ) : ℚ) * 175.72 / 65536 - 46.85 :=
  ⟨(read_after_unacknowledged_probe __si7021_config_default
      (World.boot_with ESP_OK ESP_OK [Reply.error ESP_FAIL, Reply.error ESP_ERR_TIMEOUT])
      (by decide) (by decide) (by decide)).1,
   (read_after_unacknowledged_probe __si7021_config_default
      (World.boot_with ESP_OK ESP_OK [Reply.error ESP_FAIL, Reply.error ESP_ERR_TIMEOUT])
      (by decide) (by decide) (by decide)).2.2.2.1 (by decide),
   ((read_after_unacknowledged_probe __si7021_config_default
      (World.boot_with ESP_OK ESP_OK
        [Reply.error ESP_FAIL, Reply.ok, Reply.bytes [0x68, 0x3A, 0x7C]])
      (by decide) (by decide) (by decide)).2.2.2.2 0x68 0x3A 0x7C []
      (transact (link_send [SI7021_MEASTEMP_NOHOLD_CMD])
        (si7021_init __si7021_config_default (World.boot_with ESP_OK ESP_OK
          [Reply.error ESP_FAIL, Reply.ok, Reply.bytes [0x68, 0x3A, 0x7C]])).2).2.2
      (transact (link_receive 2) (settle (transact (link_send [SI7021_MEASTEMP_NOHOLD_CMD])
        (si7021_init __si7021_config_default (World.boot_with ESP_OK ESP_OK
          [Reply.error ESP_FAIL, Reply.ok, Reply.bytes [0x68, 0x3A, 0x7C]])).2).2.2)).2.2
      rfl (by decide)).1 rfl⟩

/-- Counterexample to C12 as stated: the probe of `si7021_init` is not
acknowledged and `SI7021_ERR_NOTFOUND` is returned; the following
`si7021_read_temperature` and `si7021_read_humidity` nevertheless run their two
bus transactions and return the converted reading of the bytes 0x68, 0x3A. -/
theorem read_after_unacknowledged_probe_not_rejected :
    (si7021_init __si7021_config_default
      (World.boot_with ESP_OK ESP_OK
        [Reply.error ESP_FAIL, Reply.ok, Reply.bytes [0x68, 0x3A, 0x7C]])).1
        = SI7021_ERR_NOTFOUND ∧
    (si7021_read_temperature (si7021_init __si7021_config_default
      (World.boot_with ESP_OK ESP_OK
        [Reply.error ESP_FAIL, Reply.ok, Reply.bytes [0x68, 0x3A, 0x7C]])).2).2.trace
      = [Event.param_config 0 __si7021_config_default.sensors_config,
          Event.driver_install 0 I2C_MODE_MASTER,
          Event.cmd_begin 0 link_probe 1000,
          Event.cmd_begin 0 (link_send [SI7021_MEASTEMP_NOHOLD_CMD]) 1000,
          Event.delay 50,
          Event.cmd_begin 0 (link_receive 2) 1000] ∧
    (si7021_read_humidity (si7021_init __si7021_config_default
      (World.boot_with ESP_OK ESP_OK
        [Reply.error ESP_FAIL, Reply.ok, Reply.bytes [0x68, 0x3A, 0x7C]])).2).2.trace
      = [Event.param_config 0 __si7021_config_default.sensors_config,
          Event.driver_install 0 I2C_MODE_MASTER,
          Event.cmd_begin 0 link_probe 1000,
          Event.cmd_begin 0 (link_send [SI7021_MEASRH_NOHOLD_CMD]) 1000,
          Event.delay 50,
          Event.cmd_begin 0 (link_receive 2) 1000] ∧
    (__si7021_read SI7021_MEASTEMP_NOHOLD_CMD (si7021_init __si7021_config_default
      (World.boot_with ESP_OK ESP_OK
        [Reply.error ESP_FAIL, Reply.ok, Reply.bytes [0x68, 0x3A, 0x7C]])).2).1 = 0x6838 ∧
    (si7021_read_temperature (si7021_init __si7021_config_default
      (World.boot_with ESP_OK ESP_OK
        [Reply.error ESP_FAIL, Reply.ok, Reply.bytes [0x68, 0x3A, 0x7C]])).2).1
      = ((0x6838 : ℕ) : ℚ) * 175.72 / 65536 - 46.85 ∧
    (si7021_read_humidity (si7021_init __si7021_config_default
      (World.boot_with ESP_OK ESP_OK
        [Reply.error ESP_FAIL, Reply.ok, Reply.bytes [0x68, 0x3A, 0x7C]])).2).1
      = 125 * ((0x6838 : ℕ) : ℚ) / 65536 - 6.0 := by
  have hT : (__si7021_read SI7021_MEASTEMP_NOHOLD_CMD (si7021_init __si7021_config_default
      (World.boot_with ESP_OK ESP_OK
        [Reply.error ESP_FAIL, Reply.ok, Reply.bytes [0x68, 0x3A, 0x7C]])).2).1 = 0x6838 := by
    decide
  have hH : (__si7021_read SI7021_MEASRH_NOHOLD_CMD (si7021_init __si7021_config_default
      (World.boot_with ESP_OK ESP_OK
        [Reply.error ESP_FAIL, Reply.ok, Reply.bytes [0x68, 0x3A, 0x7C]])).2).1 = 0x6838 := by
    decide
  refine ⟨by decide, by decide, by decide, hT, ?_, ?_⟩
  · rw [si7021_read_temperature_unfold, hT, if_neg (by decide)]
    norm_num
  · rw [si7021_read_humidity_unfold, hH, if_neg (by decide)]
    norm_num

/-- Claim C13: for every transport outcome that is none of
`ESP_ERR_INVALID_ARG`, `ESP_FAIL`, `ESP_ERR_INVALID_STATE`, `ESP_ERR_TIMEOUT`
(also a failure such as out of memory or not supported), `si7021_soft_reset`,
`__si7021_write_user_register` and `si7021_set_heater_register` return
`SI7021_ERR_OK`: the error switch has no default branch. -/
theorem unlisted_outcome_reported_ok (value : Nat) (w : World)
    (h1 : next_outcome w ≠ ESP_ERR_INVALID_ARG) (h2 : next_outcome w ≠ ESP_FAIL)
    (h3 : next_outcome w ≠ ESP_ERR_INVALID_STATE) (h4 : next_outcome w ≠ ESP_ERR_TIMEOUT) :
    (si7021_soft_reset w).1 = SI7021_ERR_OK ∧
    (__si7021_write_user_register value w).1 = SI7021_ERR_OK ∧
    (si7021_set_heater_register value w).1 = SI7021_ERR_OK := by
  rw [soft_reset_code, write_user_register_code, set_heater_register_code]
  simp only [h1, h2, h3, h4, if_false, and_self]

/-- Witness for C13: a transaction that fails with out of memory, or with not
supported, is reported as `SI7021_ERR_OK`, although neither outcome is `ESP_OK`
and the register write did not reach the sensor. -/
theorem unlisted_outcome_reported_ok_witness :
    ESP_ERR_NO_MEM ≠ ESP_OK ∧ ESP_ERR_NOT_SUPPORTED ≠ ESP_OK ∧
    ((si7021_soft_reset (World.boot 0x3A [Reply.error ESP_ERR_NO_MEM])).1 = SI7021_ERR_OK ∧
      (__si7021_write_user_register 0x3B (World.boot 0x3A [Reply.error ESP_ERR_NO_MEM])).1
        = SI7021_ERR_OK ∧
      (si7021_set_heater_register 0x3B (World.boot 0x3A [Reply.error ESP_ERR_NO_MEM])).1
        = SI7021_ERR_OK) ∧
    ((si7021_soft_reset (World.boot 0x3A [Reply.error ESP_ERR_NOT_SUPPORTED])).1
        = SI7021_ERR_OK ∧
      (__si7021_write_user_register 0x3B
        (World.boot 0x3A [Reply.error ESP_ERR_NOT_SUPPORTED])).1 = SI7021_ERR_OK ∧
      (si7021_set_heater_register 0x3B
        (World.boot 0x3A [Reply.error ESP_ERR_NOT_SUPPORTED])).1 = SI7021_ERR_OK) ∧
    (__si7021_write_user_register 0x3B
      (World.boot 0x3A [Reply.error ESP_ERR_NO_MEM])).2.user_reg = 0x3A :=
  ⟨by decide, by decide,
   unlisted_outcome_reported_ok 0x3B (World.boot 0x3A [Reply.error ESP_ERR_NO_MEM])
      (by decide) (by decide) (by decide) (by decide),
   unlisted_outcome_reported_ok 0x3B (World.boot 0x3A [Reply.error ESP_ERR_NOT_SUPPORTED])
      (by decide) (by decide) (by decide) (by decide),
   by decide⟩

end SI7021
